import Mathlib

/-!
Verification development for the contactdb API backend
(`contactdb_api/contactdb_api/serve.py`).

The source manipulates a PostgreSQL database through psycopg2 with one
global connection.  Every query helper takes an `end_transaction` flag:
when true the helper commits the open transaction, when false the
effects stay pending until a later commit, and `rollback` discards all
pending statements since the last commit.  We embed this by a
connection state carrying two database snapshots, `committed` and
`current`: statements act on `current`, a commit copies `current` into
`committed`, a rollback copies `committed` back into `current`.

The relational schema itself is not part of this repository.  Modelled
from the spec: organisations carry a single id (the source SQL refers
to this column both as `organisation_id` and `id`), the
organisation-to-ASN link table is keyed by organisation id and ASN
number (the source refers to the ASN-number column as `asn`, `asn_id`
and `number` in different helpers) and carries a per-link notification
interval, contacts carry a single generated id (`contact_id` / `id` in
the source), and generated ids come from a sequence modelled by a
single `next_id` counter.  Python dictionaries that hold a row or a
payload are modelled by structures; a key that may be missing or null
is modelled by `Option` or by `PyVal` (absent / null / value), since
the source distinguishes missing keys (KeyError), `None` values and
real values.
-/

deriving instance DecidableEq for Except

namespace ContactDb

/-- Row of the `organisation` table (manual variant).  Scalar columns
are nullable in the store, hence `Option`. -/
structure OrgRow where
  organisation_id : Nat
  name : Option String
  comment : Option String
  ripe_org_hdl : Option String
  ti_handle : Option String
  first_handle : Option String
  sector_id : Option Nat
deriving DecidableEq, Repr

/-- Row of the `organisation_to_asn` link table (manual variant). -/
structure OrgToAsnRow where
  organisation_id : Nat
  asn : Nat
  notification_interval : Option Int
deriving DecidableEq, Repr

/-- Row of the `autonomous_system_annotation` table: one free-text
note (column `annotation` in the source) attached to an ASN number. -/
structure AsnAnnoRow where
  asn : Nat
  anno : String
deriving DecidableEq, Repr

/-- Row of the `organisation_annotation` table. -/
structure OrgAnnoRow where
  organisation_id : Nat
  anno : String
deriving DecidableEq, Repr

/-- Row of the `contact` table.  `contact_id` is the generated key the
source uses in `DELETE FROM contact WHERE id = %s` and reads back via
`SELECT *`. -/
structure ContactRow where
  contact_id : Nat
  firstname : String
  lastname : String
  tel : String
  openpgp_fpr : String
  email : String
  comment : String
  organisation_id : Nat
deriving DecidableEq, Repr

/-- Row of the `role` table used by `__remove_or_unlink_contacts`. -/
structure RoleRow where
  organisation_id : Nat
  contact_id : Nat
deriving DecidableEq, Repr

/-- Row of the `inhibition` table (id and the referenced network). -/
structure InhibitionRow where
  id : Nat
  net_id : Nat
deriving DecidableEq, Repr

/-- Row of the `network` table. -/
structure NetworkRow where
  network_id : Nat
  address : String
deriving DecidableEq, Repr

/-- Row of the `organisation_to_network` link table. -/
structure OrgToNetworkRow where
  organisation_id : Nat
  network_id : Nat
deriving DecidableEq, Repr

/-- Row of the `national_cert` table. -/
structure NationalCertRow where
  organisation_id : Nat
  cert_name : String
deriving DecidableEq, Repr

/-- Row of the `fqdn` table. -/
structure FqdnRow where
  fqdn_id : Nat
  fqdn : String
deriving DecidableEq, Repr

/-- Row of the `organisation_to_fqdn` link table. -/
structure OrgToFqdnRow where
  organisation_id : Nat
  fqdn_id : Nat
deriving DecidableEq, Repr

/-- One result row of `SELECT * FROM network JOIN organisation_to_network`. -/
structure NetworkJoinRow where
  network_id : Nat
  address : String
  organisation_id : Nat
deriving DecidableEq, Repr

/-- One result row of `SELECT * FROM fqdn JOIN organisation_to_fqdn`. -/
structure FqdnJoinRow where
  fqdn_id : Nat
  fqdn : String
  organisation_id : Nat
deriving DecidableEq, Repr

/-- The database: the manual tables touched by the writer paths, plus
`contact_automatic` for the search endpoint.  `next_id` models the id
sequence backing the generated keys. -/
structure Db where
  organisation : List OrgRow
  organisation_to_asn : List OrgToAsnRow
  autonomous_system : List Nat
  asn_annos : List AsnAnnoRow
  org_annos : List OrgAnnoRow
  contact : List ContactRow
  contact_automatic : List ContactRow
  role : List RoleRow
  inhibition : List InhibitionRow
  network : List NetworkRow
  national_cert : List NationalCertRow
  organisation_to_network : List OrgToNetworkRow
  fqdn : List FqdnRow
  organisation_to_fqdn : List OrgToFqdnRow
  next_id : Nat
deriving DecidableEq, Repr

/-- The psycopg2 connection: the last committed database state and the
state as seen inside the open transaction. -/
structure Conn where
  committed : Db
  current : Db
deriving DecidableEq, Repr

/-- Commit the open transaction when the `end_transaction` flag of a
query helper is true (source `__commit_transaction`). -/
def commitIf (b : Bool) (c : Conn) : Conn :=
  if b then { committed := c.current, current := c.current } else c

/-- Source `__rollback_transaction`: discard all pending statements. -/
def rollbackConn (c : Conn) : Conn :=
  { c with current := c.committed }

/-- Errors that can escape a writer call: `CommitError` raised by
serve.py itself, and the Python-level exceptions the code can raise
(a KeyError for a missing dictionary key, the TypeError from using a
`None` SQL aggregate as an iterable). -/
inductive Err where
  | commitError (msg : String)
  | pyKeyError (key : String)
  | pyTypeError
deriving DecidableEq, Repr

/-- A database action: runs on a connection, produces a result or an
error, and the connection state reached (Python exceptions do not undo
statements already executed). -/
def DbM (α : Type) : Type := Conn → Except Err α × Conn

/-- A Python dictionary entry that can be missing, `None`, or a value. -/
inductive PyVal (α : Type) where
  | absent
  | null
  | val (a : α)
deriving DecidableEq, Repr

/-- The `sector_id` entry of an organisation payload: the source
treats a missing key, `None` and the empty string alike. -/
inductive PySector where
  | absent
  | null
  | emptystr
  | val (n : Nat)
deriving DecidableEq, Repr

/-- One entry of a payload's `asns` list.  `_create_org`/`_update_org`
read keys `asn` and `annotations`; `_delete_org`'s helper reads the
ASN number (key `number` in the source) and strips the link-local
keys, and may find an `inhibitions` list. -/
structure AsnPayload where
  organisation_id : Option Nat
  asn : Nat
  notification_interval : Option Int
  annotations : PyVal (List String)
  inhibitions : Option (List InhibitionRow)
deriving DecidableEq, Repr

/-- One entry of a payload's `contacts` list.  `none` models a key
that is missing or null (both make `__fix_contacts_to_org` fail). -/
structure ContactPayload where
  contact_id : Option Nat
  firstname : Option String
  lastname : Option String
  tel : Option String
  openpgp_fpr : Option String
  email : Option String
  comment : Option String
  organisation_id : Option Nat
deriving DecidableEq, Repr

/-- An organisation payload as handed to the commit endpoint. -/
structure OrgPayload where
  id : Option Nat
  name : PyVal String
  comment : PyVal String
  ripe_org_hdl : PyVal String
  ti_handle : PyVal String
  first_handle : PyVal String
  sector_id : PySector
  asns : Option (List AsnPayload)
  contacts : Option (List ContactPayload)
  nationalcerts : Option (List NationalCertRow)
  networks : Option (List NetworkJoinRow)
  fqdns : Option (List FqdnJoinRow)
  annotations : PyVal (List String)
deriving DecidableEq, Repr

/-- One `asns` entry of the aggregate `__db_query_org` assembles: the
link row, plus an `annotations` key that is attached only when at
least one annotation row exists for the ASN (`none` = key absent). -/
structure AsnEntry where
  organisation_id : Nat
  asn : Nat
  notification_interval : Option Int
  annotations : Option (List String)
deriving DecidableEq, Repr

/-- The organisation aggregate `__db_query_org` returns for the manual
variant.  `annotations` holds the raw `array_agg` of the org-level
annotation table, which is SQL NULL (`none`) when no row exists. -/
structure OrgAggregate where
  organisation_id : Nat
  name : Option String
  comment : Option String
  ripe_org_hdl : Option String
  ti_handle : Option String
  first_handle : Option String
  sector_id : Option Nat
  asns : List AsnEntry
  contacts : List ContactRow
  nationalcerts : List NationalCertRow
  networks : List NetworkJoinRow
  fqdns : List FqdnJoinRow
  annotations : Option (List String)
deriving DecidableEq, Repr

/-- `SELECT array_agg(annotation) FROM autonomous_system_annotation
WHERE asn = %s` : the aggregate is NULL when no row matches, otherwise
the list of matching values in table order. -/
def asnAnnosAgg (db : Db) (asn : Nat) : Option (List String) :=
  let rows := db.asn_annos.filter (fun r => r.asn == asn)
  if rows.isEmpty then none else some (rows.map (fun r => r.anno))

/-- `SELECT array_agg(annotation) FROM organisation_annotation WHERE
organisation_id = %s`, over the annotation table. -/
def orgAnnosAggT (rows0 : List OrgAnnoRow) (org_id : Nat) : Option (List String) :=
  let rows := rows0.filter (fun r => r.organisation_id == org_id)
  if rows.isEmpty then none else some (rows.map (fun r => r.anno))

/-- The same aggregate read from the database state. -/
def orgAnnosAgg (db : Db) (org_id : Nat) : Option (List String) :=
  orgAnnosAggT db.org_annos org_id

/-- Source `__db_query_asn_annotations`: returns
`results[0]["array_agg"]` unchanged, i.e. `none` (SQL NULL / Python
`None`) when the ASN has no annotation rows. -/
def __db_query_asn_annotations (asn : Nat) (end_transaction : Bool) : DbM (Option (List String)) :=
  fun c => (Except.ok (asnAnnosAgg c.current asn), commitIf end_transaction c)

/-- Source `__db_query_asn` for the manual variant: the first link row
for the ASN with the annotation aggregate attached, or `None` when no
link row exists. -/
def __db_query_asn (asn : Nat) (end_transaction : Bool) : DbM (Option AsnEntry) :=
  fun c =>
    let rows := c.current.organisation_to_asn.filter (fun r => r.asn == asn)
    let c1 := commitIf end_transaction c
    match rows with
    | [] => (Except.ok none, c1)
    | r :: _ =>
      let agg := asnAnnosAgg c1.current asn
      let c2 := commitIf end_transaction c1
      (Except.ok (some { organisation_id := r.organisation_id, asn := r.asn,
                         notification_interval := r.notification_interval,
                         annotations := agg }), c2)

/-- The `SELECT * FROM network JOIN organisation_to_network` query of
`__db_query_org`, over the two tables. -/
def joinNetworksT (nets : List NetworkRow) (otn : List OrgToNetworkRow) :
    List NetworkJoinRow :=
  nets.flatMap (fun n =>
    otn.filterMap (fun l =>
      if l.network_id == n.network_id then
        some { network_id := n.network_id, address := n.address,
               organisation_id := l.organisation_id }
      else none))

/-- The same join read from the database state. -/
def joinNetworks (db : Db) : List NetworkJoinRow :=
  joinNetworksT db.network db.organisation_to_network

/-- The `SELECT * FROM fqdn JOIN organisation_to_fqdn` query of
`__db_query_org`, over the two tables. -/
def joinFqdnsT (fqs : List FqdnRow) (otf : List OrgToFqdnRow) : List FqdnJoinRow :=
  fqs.flatMap (fun f =>
    otf.filterMap (fun l =>
      if l.fqdn_id == f.fqdn_id then
        some { fqdn_id := f.fqdn_id, fqdn := f.fqdn,
               organisation_id := l.organisation_id }
      else none))

/-- The same join read from the database state. -/
def joinFqdns (db : Db) : List FqdnJoinRow :=
  joinFqdnsT db.fqdn db.organisation_to_fqdn

/-- The per-ASN annotation attachment loop at the end of
`__db_query_org`.  For each link row it probes the annotation table
(commit per the caller's flag) and, when at least one row exists,
attaches the aggregate — fetched by a call to
`__db_query_asn_annotations` that uses the DEFAULT
`end_transaction=True` (source line 350), hence commits the open
transaction as a side effect. -/
def attachAsnAnnos (end_transaction : Bool) : List OrgToAsnRow → Conn → List AsnEntry × Conn
  | [], c => ([], c)
  | r :: rest, c =>
    let probe := c.current.asn_annos.filter (fun a => a.asn == r.asn)
    let c1 := commitIf end_transaction c
    if probe.isEmpty then
      let res := attachAsnAnnos end_transaction rest c1
      ({ organisation_id := r.organisation_id, asn := r.asn,
         notification_interval := r.notification_interval,
         annotations := none } :: res.1, res.2)
    else
      let agg := asnAnnosAgg c1.current r.asn
      let c2 := commitIf true c1
      let res := attachAsnAnnos end_transaction rest c2
      ({ organisation_id := r.organisation_id, asn := r.asn,
         notification_interval := r.notification_interval,
         annotations := agg } :: res.1, res.2)

/-- Source `__db_query_org` for the manual variant: `{}` (here `none`)
unless exactly one organisation row matches, otherwise the full
aggregate.  The first two queries pass `end_transaction=False`
explicitly; the remaining ones pass the caller's flag; the per-ASN
annotation attachment commits unconditionally (see `attachAsnAnnos`). -/
def __db_query_org (org_id : Nat) (end_transaction : Bool) : DbM (Option OrgAggregate) :=
  fun c =>
    let rows := c.current.organisation.filter (fun r => r.organisation_id == org_id)
    match rows with
    | [r] =>
      let asnrows := c.current.organisation_to_asn.filter (fun l => l.organisation_id == org_id)
      let c1 := commitIf end_transaction c
      let contacts := c1.current.contact.filter (fun k => k.organisation_id == org_id)
      let c2 := commitIf end_transaction c1
      let certs := c2.current.national_cert.filter (fun k => k.organisation_id == org_id)
      let c3 := commitIf end_transaction c2
      let networks := (joinNetworks c3.current).filter (fun k => k.organisation_id == org_id)
      let c4 := commitIf end_transaction c3
      let fqdns := (joinFqdns c4.current).filter (fun k => k.organisation_id == org_id)
      let c5 := commitIf end_transaction c4
      let annos := orgAnnosAgg c5.current org_id
      let c6 := commitIf end_transaction c5
      let res := attachAsnAnnos end_transaction asnrows c6
      (Except.ok (some { organisation_id := r.organisation_id, name := r.name,
                         comment := r.comment, ripe_org_hdl := r.ripe_org_hdl,
                         ti_handle := r.ti_handle, first_handle := r.first_handle,
                         sector_id := r.sector_id, asns := res.1, contacts := contacts,
                         nationalcerts := certs, networks := networks, fqdns := fqdns,
                         annotations := annos }), res.2)
    | _ => (Except.ok none, c)

/-- Source `__remove_inhibitions`: delete the given inhibition rows,
then delete every network row no inhibition references any more. -/
def __remove_inhibitions (inhibitions : List InhibitionRow) : DbM Unit :=
  fun c =>
    let ids := inhibitions.map (fun i => i.id)
    let db1 := { c.current with
                 inhibition := c.current.inhibition.filter (fun i => !(ids.contains i.id)) }
    let db2 := { db1 with
                 network := db1.network.filter (fun n =>
                   db1.inhibition.any (fun i => i.net_id == n.network_id)) }
    (Except.ok (), { c with current := db2 })

/-- The caller-supplied ASN after `__remove_or_unlink_asns` deleted
the link-local keys (`notification_interval`, `organisation_id`, the
link id) and the `inhibitions` key: what remains is the ASN number and
the optional `annotations` entry. -/
structure StrippedAsn where
  asn : Nat
  annotations : PyVal (List String)
deriving DecidableEq, Repr

/-- The database side of the defensive comparison in
`__remove_or_unlink_asns`, reduced to the same stripped shape (the
spec describes the check as comparing the states after stripping the
link-local fields).  `__db_query_asn` returned `None` when no link row
was left, and `None` compares unequal to any dictionary; a present row
always carries an `annotations` entry (possibly null). -/
def strippedOfDb : Option AsnEntry → Option StrippedAsn
  | none => none
  | some e =>
    some { asn := e.asn,
           annotations := match e.annotations with
                          | none => PyVal.null
                          | some l => PyVal.val l }

/-- Source `__remove_or_unlink_asns`: for each supplied ASN, delete
the link row to `org_id`; if no link to any organisation remains,
fetch the ASN's remaining database state, remove its inhibitions (when
the payload carries any), and delete the `autonomous_system` row only
if the stripped states match — otherwise raise
`CommitError("ASN<n> to be deleted differs from db entry.")`. -/
def __remove_or_unlink_asns : List AsnPayload → Nat → DbM Unit
  | [], _ => fun c => (Except.ok (), c)
  | ap :: rest, org_id => fun c =>
    let asn_id := ap.asn
    let db1 := { c.current with
                 organisation_to_asn := c.current.organisation_to_asn.filter
                   (fun l => !(l.organisation_id == org_id && l.asn == asn_id)) }
    let c1 := { c with current := db1 }
    let cnt := (db1.organisation_to_asn.filter (fun l => l.asn == asn_id)).length
    if cnt == 0 then
      match __db_query_asn asn_id false c1 with
      | (Except.ok asn_in_db, c2) =>
        let step : Except Err Unit × Conn :=
          match ap.inhibitions with
          | some inh => __remove_inhibitions inh c2
          | none => (Except.ok (), c2)
        match step with
        | (Except.ok _, c3) =>
          let stripped : StrippedAsn := { asn := ap.asn, annotations := ap.annotations }
          if strippedOfDb asn_in_db == some stripped then
            let db4 := { c3.current with
                         autonomous_system := c3.current.autonomous_system.filter
                           (fun n => !(n == asn_id)) }
            __remove_or_unlink_asns rest org_id { c3 with current := db4 }
          else
            (Except.error (Err.commitError ("ASN " ++ toString asn_id
              ++ " to be deleted differs from db entry.")), c3)
        | (Except.error e, c3) => (Except.error e, c3)
      | (Except.error e, c2) => (Except.error e, c2)
    else
      __remove_or_unlink_asns rest org_id c1

/-- Insert annotation rows for an ASN, one per list element, in order
(the insert loop of `__fix_asns_to_org`). -/
def insertAsnAnnos (asn : Nat) : List String → Db → Db
  | [], db => db
  | a :: rest, db =>
    insertAsnAnnos asn rest
      { db with asn_annos := db.asn_annos ++ [{ asn := asn, anno := a }] }

/-- Delete all annotation rows of an ASN whose value appears in the
list (the delete loop of `__fix_asns_to_org`). -/
def deleteAsnAnnos (asn : Nat) : List String → Db → Db
  | [], db => db
  | a :: rest, db =>
    deleteAsnAnnos asn rest
      { db with asn_annos := db.asn_annos.filter (fun r => !(r.asn == asn && r.anno == a)) }

/-- The per-ASN body of `__fix_asns_to_org`.  `annos_should` is the
payload's `annotations` entry: a missing key raises KeyError, a null
value makes the first list comprehension iterate `None` (TypeError).
`annos_are` is the raw `array_agg`, which is `None` whenever the ASN
has no annotation rows — the membership tests of the comprehensions
then raise TypeError.  Otherwise: insert the annotations present in
`should` but missing in `are`, delete those present in `are` but
missing in `should`, and insert the link row to the organisation when
none exists. -/
def fixAsnsLoop : List AsnPayload → Nat → DbM Unit
  | [], _ => fun c => (Except.ok (), c)
  | ap :: rest, org_id => fun c =>
    match ap.annotations with
    | PyVal.absent => (Except.error (Err.pyKeyError ("annotations")), c)
    | PyVal.null => (Except.error Err.pyTypeError, c)
    | PyVal.val should =>
      match asnAnnosAgg c.current ap.asn with
      | none => (Except.error Err.pyTypeError, c)
      | some are =>
        let toInsert := should.filter (fun a => !(are.contains a))
        let db1 := insertAsnAnnos ap.asn toInsert c.current
        let toDelete := are.filter (fun a => !(should.contains a))
        let db2 := deleteAsnAnnos ap.asn toDelete db1
        let links := db2.organisation_to_asn.filter
          (fun l => l.organisation_id == org_id && l.asn == ap.asn)
        let db3 :=
          if links.isEmpty then
            { db2 with organisation_to_asn := db2.organisation_to_asn
                ++ [{ organisation_id := org_id, asn := ap.asn, notification_interval := none }] }
          else db2
        fixAsnsLoop rest org_id { c with current := db3 }

/-- Source `__fix_asns_to_org`: run the per-ASN loop, then delete
every link of the organisation whose ASN is not in the desired list,
and delete every ASN annotation row whose ASN no longer appears in any
link row (global cleanup). -/
def __fix_asns_to_org (asns : List AsnPayload) (org_id : Nat) : DbM Unit :=
  fun c =>
    match fixAsnsLoop asns org_id c with
    | (Except.ok _, c1) =>
      let keep := asns.map (fun ap => ap.asn)
      let db1 := { c1.current with
                   organisation_to_asn := c1.current.organisation_to_asn.filter
                     (fun l => !(l.organisation_id == org_id && !(keep.contains l.asn))) }
      let db2 := { db1 with
                   asn_annos := db1.asn_annos.filter (fun r =>
                     db1.organisation_to_asn.any (fun l => l.asn == r.asn)) }
      (Except.ok (), { c1 with current := db2 })
    | (Except.error e, c1) => (Except.error e, c1)

/-- Source `__remove_or_unlink_contacts`: for each supplied contact,
delete its role link to the organisation and, when no role row for the
contact remains, delete the contact row itself. -/
def __remove_or_unlink_contacts : List ContactPayload → Nat → DbM Unit
  | [], _ => fun c => (Except.ok (), c)
  | cp :: rest, org_id => fun c =>
    match cp.contact_id with
    | none => (Except.error (Err.pyKeyError ("contact_id")), c)
    | some cid =>
      let db1 := { c.current with
                   role := c.current.role.filter
                     (fun r => !(r.organisation_id == org_id && r.contact_id == cid)) }
      let cnt := (db1.role.filter (fun r => r.contact_id == cid)).length
      let db2 :=
        if cnt == 0 then
          { db1 with contact := db1.contact.filter (fun k => !(k.contact_id == cid)) }
        else db1
      __remove_or_unlink_contacts rest org_id { c with current := db2 }

/-- The first required contact attribute that is missing or null, in
the order `__fix_contacts_to_org` checks them. -/
def contactMissingAttr (cp : ContactPayload) : Option String :=
  if cp.firstname.isNone then some ("firstname")
  else if cp.lastname.isNone then some ("lastname")
  else if cp.tel.isNone then some ("tel")
  else if cp.openpgp_fpr.isNone then some ("openpgp_fpr")
  else if cp.email.isNone then some ("email")
  else if cp.comment.isNone then some ("comment")
  else none

/-- The insert loop of `__fix_contacts_to_org`: validate each contact
(raising `CommitError("<attrib> not set")` for the first missing or
null required attribute), then insert a fresh row with a generated id.
The `getD` defaults are never used: the validation guarantees every
field is present. -/
def fixContactsLoop : List ContactPayload → Nat → DbM Unit
  | [], _ => fun c => (Except.ok (), c)
  | cp :: rest, org_id => fun c =>
    match contactMissingAttr cp with
    | some attrib => (Except.error (Err.commitError (attrib ++ " not set")), c)
    | none =>
      let row : ContactRow :=
        { contact_id := c.current.next_id,
          firstname := cp.firstname.getD (""), lastname := cp.lastname.getD (""),
          tel := cp.tel.getD (""), openpgp_fpr := cp.openpgp_fpr.getD (""),
          email := cp.email.getD (""), comment := cp.comment.getD (""),
          organisation_id := org_id }
      let db1 := { c.current with
                   contact := c.current.contact ++ [row],
                   next_id := c.current.next_id + 1 }
      fixContactsLoop rest org_id { c with current := db1 }

/-- Source `__fix_contacts_to_org`: first delete every contact row of
the organisation, then recreate one row per desired contact. -/
def __fix_contacts_to_org (contacts : List ContactPayload) (org_id : Nat) : DbM Unit :=
  fun c =>
    let db1 := { c.current with
                 contact := c.current.contact.filter (fun k => !(k.organisation_id == org_id)) }
    fixContactsLoop contacts org_id { c with current := db1 }

/-- The contact rows `fixContactsLoop` inserts for a desired contact
list, starting at the given generated id. -/
def mkContactRows (org_id : Nat) : Nat → List ContactPayload → List ContactRow
  | _, [] => []
  | nid, cp :: rest =>
    { contact_id := nid,
      firstname := cp.firstname.getD (""), lastname := cp.lastname.getD (""),
      tel := cp.tel.getD (""), openpgp_fpr := cp.openpgp_fpr.getD (""),
      email := cp.email.getD (""), comment := cp.comment.getD (""),
      organisation_id := org_id } :: mkContactRows org_id (nid + 1) rest

/-- The six required field values of a stored contact row. -/
def contactRowFields (k : ContactRow) :
    String × String × String × String × String × String :=
  (k.firstname, k.lastname, k.tel, k.openpgp_fpr, k.email, k.comment)

/-- The six required field values of a desired contact. -/
def contactPayloadFields (cp : ContactPayload) :
    String × String × String × String × String × String :=
  (cp.firstname.getD (""), cp.lastname.getD (""), cp.tel.getD (""),
   cp.openpgp_fpr.getD (""), cp.email.getD (""), cp.comment.getD (""))

/-- The first missing required attribute over a whole desired contact
list: the attribute `__fix_contacts_to_org`'s validation reports. -/
def findFirstMissing : List ContactPayload → Option String
  | [] => none
  | cp :: rest =>
    match contactMissingAttr cp with
    | some a => some a
    | none => findFirstMissing rest

/-- The organisation scalar values after `_create_org`'s attribute
loop: missing attributes raise, null ones become the empty string, and
`sector_id` is reduced to the value the search and the insert use
(`none` for absent, null or empty, matching only rows with NULL). -/
structure NormScalars where
  name : String
  comment : String
  ripe_org_hdl : String
  ti_handle : String
  first_handle : String
  sector_id : Option Nat
deriving DecidableEq, Repr

/-- One step of `_create_org`'s attribute loop: `none` when the key is
missing (raising CommitError), otherwise the value with null replaced
by the empty string. -/
def normPyStr : PyVal String → Option String
  | PyVal.absent => none
  | PyVal.null => some ("")
  | PyVal.val s => some s

/-- `_create_org`'s validation and normalisation: check the required
attributes in source order, then reject an empty name. -/
def normScalars (p : OrgPayload) : Except Err NormScalars :=
  match normPyStr p.name with
  | none => Except.error (Err.commitError ("name not set"))
  | some nm =>
    match normPyStr p.comment with
    | none => Except.error (Err.commitError ("comment not set"))
    | some cm =>
      match normPyStr p.ripe_org_hdl with
      | none => Except.error (Err.commitError ("ripe_org_hdl not set"))
      | some rp =>
        match normPyStr p.ti_handle with
        | none => Except.error (Err.commitError ("ti_handle not set"))
        | some ti =>
          match normPyStr p.first_handle with
          | none => Except.error (Err.commitError ("first_handle not set"))
          | some fh =>
            if nm == "" then
              Except.error (Err.commitError ("Name of the organisation must be provided."))
            else
              Except.ok { name := nm, comment := cm, ripe_org_hdl := rp,
                          ti_handle := ti, first_handle := fh,
                          sector_id := match p.sector_id with
                                       | PySector.val n => some n
                                       | _ => none }

/-- The WHERE clause of `_create_org`'s duplicate search: all five
scalar columns equal, and the sector column equal to the normalised
sector (`none` standing for the `IS NULL` branch). -/
def orgRowMatches (n : NormScalars) (r : OrgRow) : Bool :=
  r.name == some n.name && r.comment == some n.comment
    && r.ripe_org_hdl == some n.ripe_org_hdl && r.ti_handle == some n.ti_handle
    && r.first_handle == some n.first_handle && r.sector_id == n.sector_id

/-- The rows `_create_org`'s duplicate search returns. -/
def matchingRows (db : Db) (n : NormScalars) : List OrgRow :=
  db.organisation.filter (fun r => orgRowMatches n r)

/-- The sector value `_update_org` stores: the empty string and null
collapse to SQL NULL. -/
def sectorNorm : PySector → Option Nat
  | PySector.val k => some k
  | _ => none

/-- The organisation row `_create_org` inserts when no row matches. -/
def mkOrgRow (i : Nat) (n : NormScalars) : OrgRow :=
  { organisation_id := i, name := some n.name, comment := some n.comment,
    ripe_org_hdl := some n.ripe_org_hdl, ti_handle := some n.ti_handle,
    first_handle := some n.first_handle, sector_id := n.sector_id }

/-- Source `_create_org`: validate and normalise the scalar fields,
search for an existing row with identical values (CommitError when
more than one matches), reuse its id or insert a new row taking the
generated id, then reconcile ASNs and contacts against that id. -/
def _create_org (p : OrgPayload) : DbM Nat :=
  fun c =>
    match normScalars p with
    | Except.error e => (Except.error e, c)
    | Except.ok n =>
      let found := matchingRows c.current n
      if found.length > 1 then
        (Except.error (Err.commitError ("More than one organisation row like this in the db")), c)
      else
        let step : Nat × Conn :=
          match found with
          | r :: _ => (r.organisation_id, c)
          | [] =>
            let newId := c.current.next_id
            (newId, { c with current := { c.current with
                                          organisation := c.current.organisation
                                            ++ [mkOrgRow newId n],
                                          next_id := newId + 1 } })
        match p.asns with
        | none => (Except.error (Err.pyKeyError ("asns")), step.2)
        | some asns =>
          match __fix_asns_to_org asns step.1 step.2 with
          | (Except.error e, c2) => (Except.error e, c2)
          | (Except.ok _, c2) =>
            match p.contacts with
            | none => (Except.error (Err.pyKeyError ("contacts")), c2)
            | some contacts =>
              match __fix_contacts_to_org contacts step.1 c2 with
              | (Except.error e, c3) => (Except.error e, c3)
              | (Except.ok _, c3) => (Except.ok step.1, c3)

/-- A scalar passed as a statement parameter by `_update_org`'s final
UPDATE: a missing key raises KeyError when the statement is built,
null becomes SQL NULL, a value is stored as is. -/
def pyParam (key : String) : PyVal String → Except Err (Option String)
  | PyVal.absent => Except.error (Err.pyKeyError key)
  | PyVal.null => Except.ok none
  | PyVal.val s => Except.ok (some s)

/-- Source `_update_org`: re-read the aggregate (CommitError if the
organisation is not in the db or the id does not match), reject a
missing, null or empty name, reconcile ASNs then contacts, normalise
an empty-string sector to null, and finally update the organisation
row's scalar columns. -/
def _update_org (p : OrgPayload) : DbM Nat :=
  fun c =>
    match p.id with
    | none => (Except.error (Err.pyKeyError ("id")), c)
    | some org_id =>
      match __db_query_org org_id false c with
      | (Except.error e, c1) => (Except.error e, c1)
      | (Except.ok none, c1) =>
        (Except.error (Err.commitError ("Org " ++ toString org_id
          ++ " to be updated not in db.")), c1)
      | (Except.ok (some agg), c1) =>
        if !(agg.organisation_id == org_id) then
          (Except.error (Err.commitError ("Org " ++ toString org_id
            ++ " to be updated not in db.")), c1)
        else
          match p.name with
          | PyVal.val nm =>
            if nm == "" then
              (Except.error (Err.commitError ("Name of the organisation must be provided.")), c1)
            else
              match p.asns with
              | none => (Except.error (Err.pyKeyError ("asns")), c1)
              | some asns =>
                match __fix_asns_to_org asns org_id c1 with
                | (Except.error e, c2) => (Except.error e, c2)
                | (Except.ok _, c2) =>
                  match p.contacts with
                  | none => (Except.error (Err.pyKeyError ("contacts")), c2)
                  | some contacts =>
                    match __fix_contacts_to_org contacts org_id c2 with
                    | (Except.error e, c3) => (Except.error e, c3)
                    | (Except.ok _, c3) =>
                      match p.sector_id with
                      | PySector.absent => (Except.error (Err.pyKeyError ("sector_id")), c3)
                      | sect =>
                        let sector : Option Nat :=
                          match sect with
                          | PySector.val k => some k
                          | _ => none
                        match pyParam ("comment") p.comment with
                        | Except.error e => (Except.error e, c3)
                        | Except.ok cm =>
                          match pyParam ("ripe_org_hdl") p.ripe_org_hdl with
                          | Except.error e => (Except.error e, c3)
                          | Except.ok rp =>
                            match pyParam ("ti_handle") p.ti_handle with
                            | Except.error e => (Except.error e, c3)
                            | Except.ok ti =>
                              match pyParam ("first_handle") p.first_handle with
                              | Except.error e => (Except.error e, c3)
                              | Except.ok fh =>
                                let db4 := { c3.current with
                                             organisation := c3.current.organisation.map (fun r =>
                                               if r.organisation_id == org_id then
                                                 { r with name := some nm, sector_id := sector,
                                                          comment := cm, ripe_org_hdl := rp,
                                                          ti_handle := ti, first_handle := fh }
                                               else r) }
                                (Except.ok org_id, { c3 with current := db4 })
          | _ =>
            (Except.error (Err.commitError ("Name of the organisation must be provided.")), c1)

/-- One `asns` entry of a read-back aggregate viewed as the payload
dictionary `_delete_org` compares against: the link-local keys are
present, the `annotations` key exists exactly when the read attached
one, and there is no `inhibitions` key. -/
def asnEntryToPayload (e : AsnEntry) : AsnPayload :=
  { organisation_id := some e.organisation_id, asn := e.asn,
    notification_interval := e.notification_interval,
    annotations := match e.annotations with
                   | none => PyVal.absent
                   | some l => PyVal.val l,
    inhibitions := none }

/-- A contact row viewed as the payload dictionary shape. -/
def contactRowToPayload (k : ContactRow) : ContactPayload :=
  { contact_id := some k.contact_id, firstname := some k.firstname,
    lastname := some k.lastname, tel := some k.tel,
    openpgp_fpr := some k.openpgp_fpr, email := some k.email,
    comment := some k.comment, organisation_id := some k.organisation_id }

/-- A nullable column value as the payload dictionary entry it reads
back as: SQL NULL arrives as a present key holding `None`. -/
def optToPyStr : Option String → PyVal String
  | none => PyVal.null
  | some s => PyVal.val s

/-- A read-back aggregate viewed as a payload dictionary: this is the
shape against which `_delete_org`'s `org_in_db == org` comparison can
succeed.  Every key the read produces is present; the org-level
`annotations` key always exists (holding null for a NULL aggregate). -/
def aggToPayload (a : OrgAggregate) : OrgPayload :=
  { id := some a.organisation_id,
    name := optToPyStr a.name, comment := optToPyStr a.comment,
    ripe_org_hdl := optToPyStr a.ripe_org_hdl, ti_handle := optToPyStr a.ti_handle,
    first_handle := optToPyStr a.first_handle,
    sector_id := match a.sector_id with
                 | none => PySector.null
                 | some k => PySector.val k,
    asns := some (a.asns.map asnEntryToPayload),
    contacts := some (a.contacts.map contactRowToPayload),
    nationalcerts := some a.nationalcerts,
    networks := some a.networks,
    fqdns := some a.fqdns,
    annotations := match a.annotations with
                   | none => PyVal.null
                   | some l => PyVal.val l }

/-- Source `_delete_org`: re-read the aggregate and raise CommitError
unless it equals the supplied payload (an empty read `{}` never
does), remove or unlink the ASNs and the contacts, delete the
organisation row, and return the id when exactly one row was affected
— otherwise return nothing. -/
def _delete_org (p : OrgPayload) : DbM (Option Nat) :=
  fun c =>
    match p.id with
    | none => (Except.error (Err.pyKeyError ("id")), c)
    | some org_id =>
      match __db_query_org org_id false c with
      | (Except.error e, c1) => (Except.error e, c1)
      | (Except.ok aggOpt, c1) =>
        let isMatch : Bool :=
          match aggOpt with
          | none => false
          | some agg => aggToPayload agg == p
        if !isMatch then
          (Except.error (Err.commitError ("Org to be deleted differs from db entry.")), c1)
        else
          match p.asns with
          | none => (Except.error (Err.pyKeyError ("asns")), c1)
          | some asns =>
            match __remove_or_unlink_asns asns org_id c1 with
            | (Except.error e, c2) => (Except.error e, c2)
            | (Except.ok _, c2) =>
              match p.contacts with
              | none => (Except.error (Err.pyKeyError ("contacts")), c2)
              | some contacts =>
                match __remove_or_unlink_contacts contacts org_id c2 with
                | (Except.error e, c3) => (Except.error e, c3)
                | (Except.ok _, c3) =>
                  let affected := (c3.current.organisation.filter
                    (fun r => r.organisation_id == org_id)).length
                  let db4 := { c3.current with
                               organisation := c3.current.organisation.filter
                                 (fun r => !(r.organisation_id == org_id)) }
                  (Except.ok (if affected == 1 then some org_id else none),
                   { c3 with current := db4 })

/-- What the commit endpoint returns: a structured rejection or the
ordered per-item result list (`_delete_org` may yield no id, hence
`Option Nat`; create and update always yield one). -/
inductive CommitResponse where
  | badRequest (reason : String)
  | ok (results : List (String × Option Nat))
deriving DecidableEq, Repr

/-- The `known_commands` dispatch of the commit endpoint. -/
def dispatch (command : String) (org : OrgPayload) : DbM (Option Nat) :=
  fun c =>
    if command == "create" then
      match _create_org org c with
      | (Except.ok i, c1) => (Except.ok (some i), c1)
      | (Except.error e, c1) => (Except.error e, c1)
    else if command == "update" then
      match _update_org org c with
      | (Except.ok i, c1) => (Except.ok (some i), c1)
      | (Except.error e, c1) => (Except.error e, c1)
    else
      _delete_org org c

/-- The try-block loop of the commit endpoint: run each (command, org)
pair in order inside the shared transaction, accumulating results;
the first exception aborts the loop. -/
def runCommands : List (String × OrgPayload) → Conn → Except Err (List (String × Option Nat)) × Conn
  | [], c => (Except.ok [], c)
  | (cmd, org) :: rest, c =>
    match dispatch cmd org c with
    | (Except.error e, c1) => (Except.error e, c1)
    | (Except.ok res, c1) =>
      match runCommands rest c1 with
      | (Except.ok results, c2) => (Except.ok ((cmd, res) :: results), c2)
      | (Except.error e, c2) => (Except.error e, c2)

/-- Source `commit_pending_org_changes`: reject a batch whose arrays
are empty or of different length, or containing an unknown command,
without touching the database; otherwise run all items, committing
once at the end on success and rolling the shared transaction back on
the first exception (returning the generic rejection). -/
def commit_pending_org_changes (commands : List String) (orgs : List OrgPayload) :
    Conn → CommitResponse × Conn :=
  fun c =>
    if commands.isEmpty || orgs.isEmpty || !(commands.length == orgs.length) then
      (CommitResponse.badRequest ("Needs commands and orgs arrays of same length."), c)
    else if !(commands.all (fun cmd =>
        cmd == "create" || cmd == "update" || cmd == "delete")) then
      (CommitResponse.badRequest ("Unknown command."), c)
    else
      match runCommands (commands.zip orgs) c with
      | (Except.ok results, c1) =>
        (CommitResponse.ok results, commitIf true c1)
      | (Except.error _, c1) =>
        (CommitResponse.badRequest ("Commit failed, see server logs."), rollbackConn c1)

/-- What the search endpoints return. -/
structure SearchResult where
  manual : List Nat
  auto : List Nat
deriving DecidableEq, Repr

/-- SQL LIKE matching (PostgreSQL semantics, so case-sensitive):
`%` matches any sequence, `_` any single character, anything else
itself.  Defined with a fuel argument (one unit per step; pattern or
subject shrinks at every step, so `length pattern + length subject +
1` always suffices) to keep the definition structurally recursive. -/
def likeMatchF : Nat → List Char → List Char → Bool
  | 0, _, _ => false
  | _ + 1, [], s => s.isEmpty
  | fuel + 1, p :: ps, s =>
    if p == '%' then
      match s with
      | [] => likeMatchF fuel ps []
      | _ :: s2 => likeMatchF fuel ps s || likeMatchF fuel (p :: ps) s2
    else if p == '_' then
      match s with
      | [] => false
      | _ :: s2 => likeMatchF fuel ps s2
    else
      match s with
      | [] => false
      | ch :: s2 => p == ch && likeMatchF fuel ps s2

/-- `subject LIKE pattern` for strings. -/
def likeMatch (pat : String) (s : String) : Bool :=
  likeMatchF (pat.length + s.length + 1) pat.toList s.toList

/-- The WHERE clause of `searchcontact`: the email LIKE-matches the
query itself or the three wildcard variants the source builds. -/
def emailFilterMatch (q : String) (em : String) : Bool :=
  likeMatch q em || likeMatch ("%" ++ q ++ "%") em
    || likeMatch ("%" ++ q) em || likeMatch (q ++ "%") em

/-- Source `searchcontact` (via `__db_query_organisation_ids`): run
the contact query against the manual and the automatic table, each
yielding the aggregated organisation ids (a NULL aggregate collapses
to an empty list here).  Both queries commit (default flag). -/
def searchcontact (email : String) : DbM SearchResult :=
  fun c =>
    let manualRows := c.current.contact.filter (fun k => emailFilterMatch email k.email)
    let manual : List Nat :=
      if manualRows.isEmpty then [] else manualRows.map (fun k => k.organisation_id)
    let c1 := commitIf true c
    let autoRows := c1.current.contact_automatic.filter (fun k => emailFilterMatch email k.email)
    let auto : List Nat :=
      if autoRows.isEmpty then [] else autoRows.map (fun k => k.organisation_id)
    (Except.ok { manual := manual, auto := auto }, commitIf true c1)

/-! ## Concrete states and payloads used by the claim theorems -/

/-- The empty database (id sequence starting at 1). -/
def dbEmpty : Db :=
  { organisation := [], organisation_to_asn := [], autonomous_system := [],
    asn_annos := [], org_annos := [], contact := [], contact_automatic := [],
    role := [], inhibition := [], network := [], national_cert := [],
    organisation_to_network := [], fqdn := [], organisation_to_fqdn := [],
    next_id := 1 }

/-- A freshly opened connection on a database state. -/
def connOf (db : Db) : Conn := { committed := db, current := db }

/-- A well-formed creation payload: all required scalars present, name
non-empty, no ASNs and no contacts. -/
def pSimple : OrgPayload :=
  { id := none, name := PyVal.val "Acme", comment := PyVal.val "",
    ripe_org_hdl := PyVal.val "", ti_handle := PyVal.val "",
    first_handle := PyVal.val "", sector_id := PySector.null,
    asns := some [], contacts := some [],
    nationalcerts := none, networks := none, fqdns := none,
    annotations := PyVal.absent }

/-- `pSimple` with one ASN entry that has an empty desired annotation
list — a perfectly ordinary payload for linking a new ASN. -/
def pWithAsn : OrgPayload :=
  { pSimple with asns := some [{ organisation_id := none, asn := 64496,
                                 notification_interval := none,
                                 annotations := PyVal.val [], inhibitions := none }] }

/-- A desired-ASN entry (number 64496, one annotation). -/
def apX : AsnPayload :=
  { organisation_id := none, asn := 64496, notification_interval := none,
    annotations := PyVal.val ["x"], inhibitions := none }

/-- A desired-ASN entry (number 64496, empty annotation list). -/
def apNoAnno : AsnPayload :=
  { organisation_id := none, asn := 64496, notification_interval := none,
    annotations := PyVal.val [], inhibitions := none }

/-- A database in which ASN 64496 already has an annotation row and is
linked to organisation 2. -/
def dbAnno : Db :=
  { dbEmpty with
    asn_annos := [{ asn := 64496, anno := "x" }],
    organisation_to_asn := [{ organisation_id := 2, asn := 64496,
                              notification_interval := none }] }

/-- A database holding the bare organisation 2 named Acme. -/
def dbOrg2 : Db :=
  { dbEmpty with
    organisation := [{ organisation_id := 2, name := some "Acme", comment := some "",
                       ripe_org_hdl := some "", ti_handle := some "",
                       first_handle := some "", sector_id := none }],
    next_id := 3 }

/-- The aggregate `__db_query_org` returns for organisation 2 of `dbOrg2`. -/
def aggOrg2 : OrgAggregate :=
  { organisation_id := 2, name := some "Acme", comment := some "",
    ripe_org_hdl := some "", ti_handle := some "", first_handle := some "",
    sector_id := none, asns := [], contacts := [], nationalcerts := [],
    networks := [], fqdns := [], annotations := none }

/-- A database with one manual contact whose email is lower case. -/
def dbC9 : Db :=
  { dbEmpty with
    contact := [{ contact_id := 1, firstname := "f", lastname := "l", tel := "",
                  openpgp_fpr := "", email := "abc@example.com", comment := "",
                  organisation_id := 1 }] }

/-- A database holding organisation 7 with one solely-linked ASN that
carries one annotation. -/
def dbC1 : Db :=
  { dbEmpty with
    organisation := [{ organisation_id := 7, name := some "Target", comment := some "",
                       ripe_org_hdl := some "", ti_handle := some "",
                       first_handle := some "", sector_id := none }],
    organisation_to_asn := [{ organisation_id := 7, asn := 64496,
                              notification_interval := none }],
    asn_annos := [{ asn := 64496, anno := "x" }],
    next_id := 8 }

/-- A valid creation payload for a fresh organisation. -/
def pNew : OrgPayload := { pSimple with name := PyVal.val "NewOrg" }

/-- A deletion payload for organisation 7 whose contents do not match
the stored aggregate (the name differs). -/
def pDelBad : OrgPayload := { pSimple with id := some 7, name := PyVal.val "WRONG" }

/-- The aggregate stored for organisation 7 of `dbC1`. -/
def aggC1 : OrgAggregate :=
  { organisation_id := 7, name := some "Target", comment := some "",
    ripe_org_hdl := some "", ti_handle := some "", first_handle := some "",
    sector_id := none,
    asns := [{ organisation_id := 7, asn := 64496, notification_interval := none,
               annotations := some ["x"] }],
    contacts := [], nationalcerts := [], networks := [], fqdns := [],
    annotations := none }

/-- A fully populated contact payload. -/
def cFull : ContactPayload :=
  { contact_id := none, firstname := some "Ann", lastname := some "B",
    tel := some "1", openpgp_fpr := some "F", email := some "a@b.c",
    comment := some "", organisation_id := none }

/-- `pSimple` with one valid contact. -/
def pC3 : OrgPayload := { pSimple with contacts := some [cFull] }

/-- The normalised scalar values of `pSimple` (and of `pC3`). -/
def nAcme : NormScalars :=
  { name := "Acme", comment := "", ripe_org_hdl := "", ti_handle := "",
    first_handle := "", sector_id := none }

/-- A second valid contact, differing from `cFull`. -/
def cFullB : ContactPayload := { cFull with firstname := some "Bob" }

/-- `pSimple` with the other contact: identical scalar fields, a
different contact list. -/
def pC10b : OrgPayload := { pSimple with contacts := some [cFullB] }

/-- The update payload the round-trip claim uses: `pC3` extended with
the id `_create_org` returned. -/
def pC3id : OrgPayload := { pC3 with id := some 1 }

/-! ## Claim theorems: evaluations and counterexamples -/

/-- Claim C1 (code_bug): the batch commit operation is NOT atomic.
With commands `["create", "delete"]` against `dbC1`, where the delete
target (organisation 7) owns an ASN with an annotation row and the
supplied snapshot mismatches, the delete's aggregate re-read runs
`__db_query_asn_annotations` with the default `end_transaction=True`
(source line 350) and thereby commits the shared transaction mid-batch.
The subsequent `CommitError` triggers the rollback and the generic
rejection, yet the create's new organisation row persists in the
database state after the call — contradicting the claim that the state
after the call equals the state before. -/
theorem claim_C1_batch_commit_leak :
    (commit_pending_org_changes ["create", "delete"] [pNew, pDelBad] (connOf dbC1)).1
      = CommitResponse.badRequest ("Commit failed, see server logs.")
    ∧ ((commit_pending_org_changes ["create", "delete"] [pNew, pDelBad]
        (connOf dbC1)).2).current.organisation.any
        (fun r => r.name == some "NewOrg") = true
    ∧ (connOf dbC1).current.organisation.any
        (fun r => r.name == some "NewOrg") = false := by
  decide

/-- Claim C5 (code_bug): reconciling the ASNs of organisation 1 with
the desired list `[64496 with no annotations]` against the empty
database — exactly the "link a new ASN" case the claim describes —
raises a TypeError: the stored-annotation aggregate is SQL NULL and the
code uses it as an iterable.  When annotation rows already exist the
routine behaves as claimed (here: the link row to organisation 1 is
created and the annotation is untouched). -/
theorem claim_C5_null_agg_crash :
    (__fix_asns_to_org [apNoAnno] 1 (connOf dbEmpty)).1 = Except.error Err.pyTypeError
    ∧ (__fix_asns_to_org [apX] 1 (connOf dbAnno)).1 = Except.ok ()
    ∧ ((__fix_asns_to_org [apX] 1 (connOf dbAnno)).2).current.organisation_to_asn
        = [{ organisation_id := 2, asn := 64496, notification_interval := none },
           { organisation_id := 1, asn := 64496, notification_interval := none }]
    ∧ ((__fix_asns_to_org [apX] 1 (connOf dbAnno)).2).current.asn_annos
        = [{ asn := 64496, anno := "x" }] := by
  decide

/-- Claim C8 (code_bug): for an ASN with no stored annotation rows
`__db_query_asn_annotations` returns the raw NULL aggregate (`none`),
not an empty list; likewise the aggregate of organisation 2 (which has
no organisation-level annotation rows) carries `none` in its
`annotations` field, not an empty list. -/
theorem claim_C8_null_aggregate :
    (__db_query_asn_annotations 64496 true (connOf dbEmpty)).1 = Except.ok none
    ∧ (__db_query_org 2 true (connOf dbOrg2)).1 = Except.ok (some aggOrg2)
    ∧ aggOrg2.annotations = none := by
  decide

/-- Claim C9 (code_bug): the contact-email search is case-SENSITIVE
(SQL LIKE, not ILIKE): querying "ABC" against a stored email
"abc@example.com" returns no organisation, while the lower-case query
"abc" returns organisation 1. -/
theorem claim_C9_like_case_sensitive :
    (searchcontact "ABC" (connOf dbC9)).1 = Except.ok { manual := [], auto := [] }
    ∧ (searchcontact "abc" (connOf dbC9)).1 = Except.ok { manual := [1], auto := [] } := by
  decide

/-- Claim C2 counterexample: two payloads satisfying the claim's
hypotheses (all required fields present, name non-empty, no id) on
which `_create_org` returns no id at all: `pWithAsn` (its fresh ASN
has no stored annotation rows, so the call raises a TypeError) and
`pSimple` against a database that already holds two identical matching
rows (the call raises a CommitError). -/
theorem claim_C2_counterexample :
    (_create_org pWithAsn (connOf dbEmpty)).1 = Except.error Err.pyTypeError
    ∧ (_create_org pSimple (connOf
        { dbEmpty with
          organisation := [{ organisation_id := 1, name := some "Acme", comment := some "",
                             ripe_org_hdl := some "", ti_handle := some "",
                             first_handle := some "", sector_id := none },
                           { organisation_id := 2, name := some "Acme", comment := some "",
                             ripe_org_hdl := some "", ti_handle := some "",
                             first_handle := some "", sector_id := none }],
          next_id := 3 })).1
      = Except.error (Err.commitError ("More than one organisation row like this in the db")) := by
  decide

/-- Claim C3 counterexample: after `_create_org pC3` returns id 1, the
update with the same contents succeeds, but the read-back aggregate is
NOT unchanged — the contact row was deleted and recreated under a
fresh generated id. -/
theorem claim_C3_counterexample :
    (_create_org pC3 (connOf dbEmpty)).1 = Except.ok 1
    ∧ (_update_org pC3id ((_create_org pC3 (connOf dbEmpty)).2)).1 = Except.ok 1
    ∧ (__db_query_org 1 false
        ((_update_org pC3id ((_create_org pC3 (connOf dbEmpty)).2)).2)).1
      ≠ (__db_query_org 1 false ((_create_org pC3 (connOf dbEmpty)).2)).1 := by
  decide

/-- Claim C4 counterexample: (i) after a successful delete of
organisation 2, a second delete of the same id raises the
CommitError — it does not return nothing without error; (ii) for
organisation 7 of `dbC1` the supplied payload IS field-for-field the
stored aggregate, yet the delete raises a CommitError because the
solely-linked ASN 64496 becomes orphaned and the defensive comparison
(against a now-missing link row) can never succeed. -/
theorem claim_C4_counterexample :
    (_delete_org (aggToPayload aggOrg2) (connOf dbOrg2)).1 = Except.ok (some 2)
    ∧ (_delete_org (aggToPayload aggOrg2)
        ((_delete_org (aggToPayload aggOrg2) (connOf dbOrg2)).2)).1
      = Except.error (Err.commitError ("Org to be deleted differs from db entry."))
    ∧ (__db_query_org 7 false (connOf dbC1)).1 = Except.ok (some aggC1)
    ∧ (_delete_org (aggToPayload aggC1) (connOf dbC1)).1
      = Except.error (Err.commitError ("ASN 64496 to be deleted differs from db entry.")) := by
  decide

/-! ## Supporting lemmas -/

/-- When no link row for the ASN exists, `__db_query_asn` (with the
transaction left open) returns `None` and leaves the connection
unchanged. -/
theorem db_query_asn_none (asn : Nat) (c : Conn)
    (h : c.current.organisation_to_asn.filter (fun l => l.asn == asn) = []) :
    __db_query_asn asn false c = (Except.ok none, c) := by
  simp [__db_query_asn, h, commitIf]

/-- Deleting the links of one organisation to one ASN and then
selecting the remaining links of that ASN yields exactly the other
organisations' links. -/
theorem filter_unlink (l : List OrgToAsnRow) (oid a : Nat) :
    (l.filter (fun x => !(x.organisation_id == oid && x.asn == a))).filter
        (fun x => x.asn == a)
      = l.filter (fun x => x.asn == a && !(x.organisation_id == oid)) := by
  rw [List.filter_filter]
  apply List.filter_congr
  intro x _
  cases h1 : x.organisation_id == oid <;> cases h2 : x.asn == a <;> simp [h1, h2]

/-- `__remove_inhibitions` succeeds and touches only the inhibition
and network tables. -/
theorem remove_inhibitions_shape (inh : List InhibitionRow) (c : Conn) :
    (__remove_inhibitions inh c).1 = Except.ok ()
    ∧ ((__remove_inhibitions inh c).2).current.autonomous_system
        = c.current.autonomous_system
    ∧ ((__remove_inhibitions inh c).2).current.organisation_to_asn
        = c.current.organisation_to_asn
    ∧ ((__remove_inhibitions inh c).2).current.organisation
        = c.current.organisation := by
  simp [__remove_inhibitions]

/-- The organisation-delete ASN path never removes a row of the
`autonomous_system` table: in the only branch whose code could delete
one (link count zero after unlinking), `__db_query_asn` returns `None`
for the freshly unlinked ASN, so the defensive comparison never
succeeds. -/
theorem remove_asns_auto_preserved (oid : Nat) :
    ∀ (aps : List AsnPayload) (c : Conn),
      ((__remove_or_unlink_asns aps oid c).2).current.autonomous_system
        = c.current.autonomous_system := by
  intro aps
  induction aps with
  | nil => intro c; rfl
  | cons ap rest ih =>
    intro c
    simp only [__remove_or_unlink_asns]
    split
    next hcnt =>
      have hlen : ((c.current.organisation_to_asn.filter
          (fun l => !(l.organisation_id == oid && l.asn == ap.asn))).filter
            (fun l => l.asn == ap.asn)).length = 0 := by
        simpa using hcnt
      have hfil := List.length_eq_zero.mp hlen
      rw [db_query_asn_none ap.asn _ hfil]
      cases hi : ap.inhibitions with
      | none => simp [strippedOfDb]
      | some inh => simp [strippedOfDb, __remove_inhibitions]
    next hcnt =>
      rw [ih]

/-- When every link of the ASN belonged to the organisation being
deleted (no other organisation references it), the delete path raises
the `CommitError` that names the ASN. -/
theorem remove_asns_orphan_err (oid : Nat) (ap : AsnPayload) (rest : List AsnPayload)
    (c : Conn)
    (h : (c.current.organisation_to_asn.filter
           (fun l => l.asn == ap.asn && !(l.organisation_id == oid))).length = 0) :
    (__remove_or_unlink_asns (ap :: rest) oid c).1
      = Except.error (Err.commitError ("ASN " ++ toString ap.asn
          ++ " to be deleted differs from db entry.")) := by
  have hfil : (c.current.organisation_to_asn.filter
      (fun l => !(l.organisation_id == oid && l.asn == ap.asn))).filter
        (fun l => l.asn == ap.asn) = [] := by
    rw [filter_unlink]
    exact List.length_eq_zero.mp h
  simp only [__remove_or_unlink_asns]
  rw [hfil]
  simp only [List.length_nil, show ((0 : Nat) == 0) = true from rfl, if_true]
  rw [db_query_asn_none ap.asn _ hfil]
  cases hi : ap.inhibitions with
  | none => simp [strippedOfDb]
  | some inh => simp [strippedOfDb, __remove_inhibitions]

/-- Claim C7: in every execution of the organisation delete path, a
shared ASN row is physically deleted only when its link count has
reached zero and its (stripped) database state equals the caller's
stripped expected state — established here in the strongest form: the
`autonomous_system` table is never changed at all, because after the
unlink that empties the link count the database-state lookup yields
`None`, which never equals the caller's stripped dictionary; and on
that mismatch a `CommitError` naming the differing ASN is raised (the
ASN row staying in place), as the second conjunct states for the case
in which no other organisation references the ASN. -/
theorem claim_C7_asn_delete_guard :
    (∀ (aps : List AsnPayload) (oid : Nat) (c : Conn),
       ((__remove_or_unlink_asns aps oid c).2).current.autonomous_system
         = c.current.autonomous_system)
    ∧ (∀ (ap : AsnPayload) (rest : List AsnPayload) (oid : Nat) (c : Conn),
       (c.current.organisation_to_asn.filter
          (fun l => l.asn == ap.asn && !(l.organisation_id == oid))).length = 0 →
       (__remove_or_unlink_asns (ap :: rest) oid c).1
         = Except.error (Err.commitError ("ASN " ++ toString ap.asn
             ++ " to be deleted differs from db entry."))) :=
  ⟨fun aps oid c => remove_asns_auto_preserved oid aps c,
   fun ap rest oid c h => remove_asns_orphan_err oid ap rest c h⟩

/-- Witness for claim C7 at a concrete input: deleting the ASNs of
organisation 7 in `dbC1`, where ASN 64496 is linked only to
organisation 7, leaves the `autonomous_system` table unchanged and
raises the `CommitError` naming ASN 64496. -/
theorem claim_C7_witness :
    ((__remove_or_unlink_asns [apX] 7 (connOf dbC1)).2).current.autonomous_system
      = (connOf dbC1).current.autonomous_system
    ∧ (__remove_or_unlink_asns [apX] 7 (connOf dbC1)).1
      = Except.error (Err.commitError ("ASN " ++ toString apX.asn
          ++ " to be deleted differs from db entry.")) :=
  ⟨claim_C7_asn_delete_guard.1 [apX] 7 (connOf dbC1),
   claim_C7_asn_delete_guard.2 apX [] 7 (connOf dbC1) (by decide)⟩

/-- The contact insert loop with all contacts valid: appends exactly
the rows `mkContactRows` describes and advances the id sequence. -/
theorem fixContactsLoop_ok (oid : Nat) :
    ∀ (cs : List ContactPayload) (c : Conn),
      (∀ cp ∈ cs, contactMissingAttr cp = none) →
      fixContactsLoop cs oid c =
        (Except.ok (), { c with current := { c.current with
           contact := c.current.contact ++ mkContactRows oid c.current.next_id cs,
           next_id := c.current.next_id + cs.length } }) := by
  intro cs
  induction cs with
  | nil =>
    intro c _
    simp [fixContactsLoop, mkContactRows]
  | cons cp rest ih =>
    intro c h
    have h0 : contactMissingAttr cp = none := h cp (List.mem_cons_self cp rest)
    have hrest : ∀ x ∈ rest, contactMissingAttr x = none :=
      fun x hx => h x (List.mem_cons_of_mem cp hx)
    simp only [fixContactsLoop, h0]
    rw [ih _ hrest]
    simp [mkContactRows, Nat.add_assoc, Nat.add_comm, Nat.add_left_comm]

/-- The contact insert loop reports the first missing required
attribute of the desired list. -/
theorem fixContactsLoop_err (oid : Nat) :
    ∀ (cs : List ContactPayload) (c : Conn) (attrib : String),
      findFirstMissing cs = some attrib →
      (fixContactsLoop cs oid c).1
        = Except.error (Err.commitError (attrib ++ " not set")) := by
  intro cs
  induction cs with
  | nil =>
    intro c attrib h
    simp [findFirstMissing] at h
  | cons cp rest ih =>
    intro c attrib h
    cases h0 : contactMissingAttr cp with
    | some a =>
      have ha : a = attrib := by simpa [findFirstMissing, h0] using h
      subst ha
      simp [fixContactsLoop, h0]
    | none =>
      have h' : findFirstMissing rest = some attrib := by
        simpa [findFirstMissing, h0] using h
      simp only [fixContactsLoop, h0]
      exact ih _ attrib h'

/-- Selecting the contacts of an organisation right after deleting
them yields nothing. -/
theorem filter_org_of_filtered (l : List ContactRow) (oid : Nat) :
    (l.filter (fun k => !(k.organisation_id == oid))).filter
      (fun k => k.organisation_id == oid) = [] := by
  induction l with
  | nil => rfl
  | cons k ks ih => cases hb : k.organisation_id == oid <;> simp [List.filter, hb, ih]

/-- Every row the contact loop inserts belongs to the organisation. -/
theorem filter_org_mkRows (oid : Nat) :
    ∀ (nid : Nat) (cs : List ContactPayload),
      (mkContactRows oid nid cs).filter (fun k => k.organisation_id == oid)
        = mkContactRows oid nid cs := by
  intro nid cs
  induction cs generalizing nid with
  | nil => rfl
  | cons cp rest ih => simp [mkContactRows, List.filter, ih]

/-- The inserted rows carry exactly the desired field values. -/
theorem map_fields_mkRows (oid : Nat) :
    ∀ (nid : Nat) (cs : List ContactPayload),
      (mkContactRows oid nid cs).map contactRowFields = cs.map contactPayloadFields := by
  intro nid cs
  induction cs generalizing nid with
  | nil => rfl
  | cons cp rest ih => simp [mkContactRows, contactRowFields, contactPayloadFields, ih]

/-- Claim C6: when every desired contact carries the six required
fields, `__fix_contacts_to_org` succeeds and the contacts stored for
the organisation afterwards are exactly the desired list (by field
values, in order), regardless of what was stored before; when a
required field is missing or null, the operation fails with the error
naming the first missing field. -/
theorem claim_C6_contacts_full_replace :
    (∀ (c : Conn) (oid : Nat) (cs : List ContactPayload),
       (∀ cp ∈ cs, contactMissingAttr cp = none) →
       (__fix_contacts_to_org cs oid c).1 = Except.ok ()
       ∧ (((__fix_contacts_to_org cs oid c).2).current.contact.filter
            (fun k => k.organisation_id == oid)).map contactRowFields
         = cs.map contactPayloadFields)
    ∧ (∀ (c : Conn) (oid : Nat) (cs : List ContactPayload) (attrib : String),
       findFirstMissing cs = some attrib →
       (__fix_contacts_to_org cs oid c).1
         = Except.error (Err.commitError (attrib ++ " not set"))) := by
  constructor
  · intro c oid cs h
    unfold __fix_contacts_to_org
    rw [fixContactsLoop_ok oid cs _ h]
    refine ⟨rfl, ?_⟩
    simp only [List.filter_append]
    rw [filter_org_of_filtered, filter_org_mkRows]
    simp [map_fields_mkRows]
  · intro c oid cs attrib h
    unfold __fix_contacts_to_org
    exact fixContactsLoop_err oid cs _ attrib h

/-- Witness for claim C6 at a concrete input: replacing organisation
5's contacts by `[cFull]` against `dbC9` (which already stores an
unrelated contact) succeeds and stores exactly that contact, and the
same call with the telephone field removed fails naming `tel`. -/
theorem claim_C6_witness :
    ((__fix_contacts_to_org [cFull] 5 (connOf dbC9)).1 = Except.ok ()
      ∧ (((__fix_contacts_to_org [cFull] 5 (connOf dbC9)).2).current.contact.filter
           (fun k => k.organisation_id == 5)).map contactRowFields
        = [cFull].map contactPayloadFields)
    ∧ (__fix_contacts_to_org [{ cFull with tel := none }] 5 (connOf dbC9)).1
      = Except.error (Err.commitError ("tel not set")) :=
  ⟨claim_C6_contacts_full_replace.1 (connOf dbC9) 5 [cFull] (by decide),
   claim_C6_contacts_full_replace.2 (connOf dbC9) 5 [{ cFull with tel := none }]
     ("tel") (by decide)⟩

/-- `__fix_asns_to_org` with an empty desired list: unconditionally
succeeds, deletes every link of the organisation and then every
annotation row of ASNs that no link references any more. -/
theorem fix_asns_nil_eq (oid : Nat) (c : Conn) :
    __fix_asns_to_org [] oid c =
      (Except.ok (), { c with current := { c.current with
         organisation_to_asn := c.current.organisation_to_asn.filter
           (fun l => !(l.organisation_id == oid)),
         asn_annos := c.current.asn_annos.filter (fun r =>
           (c.current.organisation_to_asn.filter
             (fun l => !(l.organisation_id == oid))).any
             (fun l => l.asn == r.asn)) } }) := by
  simp [__fix_asns_to_org, fixAsnsLoop]

/-- `__fix_contacts_to_org` with valid contacts, as one equation. -/
theorem fix_contacts_eq (cs : List ContactPayload) (oid : Nat) (c : Conn)
    (h : ∀ cp ∈ cs, contactMissingAttr cp = none) :
    __fix_contacts_to_org cs oid c =
      (Except.ok (), { c with current := { c.current with
         contact := c.current.contact.filter (fun k => !(k.organisation_id == oid))
           ++ mkContactRows oid c.current.next_id cs,
         next_id := c.current.next_id + cs.length } }) := by
  unfold __fix_contacts_to_org
  rw [fixContactsLoop_ok oid cs _ h]

/-- `_create_org` when no organisation row matches the normalised
scalars: the payload row is inserted under the generated id, the
contacts are attached to it. -/
theorem create_ok_empty (c : Conn) (p : OrgPayload) (n : NormScalars)
    (cs : List ContactPayload)
    (hn : normScalars p = Except.ok n)
    (ha : p.asns = some [])
    (hc : p.contacts = some cs)
    (hcv : ∀ cp ∈ cs, contactMissingAttr cp = none)
    (hm0 : matchingRows c.current n = []) :
    (_create_org p c).1 = Except.ok c.current.next_id
    ∧ ((_create_org p c).2).current.organisation
        = c.current.organisation ++ [mkOrgRow c.current.next_id n]
    ∧ ((_create_org p c).2).current.contact
        = c.current.contact.filter (fun k => !(k.organisation_id == c.current.next_id))
          ++ mkContactRows c.current.next_id (c.current.next_id + 1) cs := by
  simp only [_create_org, hn, hm0, ha, hc, List.length_nil]
  rw [if_neg (by decide : ¬ ((0 : Nat) > 1))]
  rw [fix_asns_nil_eq]
  dsimp only
  rw [fix_contacts_eq cs _ _ hcv]
  dsimp only
  exact ⟨rfl, rfl, rfl⟩

/-- `_create_org` when exactly one organisation row matches: the
existing row is reused (no insert) and the organisation's contacts are
replaced by the payload's. -/
theorem create_ok_single (c : Conn) (p : OrgPayload) (n : NormScalars)
    (cs : List ContactPayload) (r : OrgRow)
    (hn : normScalars p = Except.ok n)
    (ha : p.asns = some [])
    (hc : p.contacts = some cs)
    (hcv : ∀ cp ∈ cs, contactMissingAttr cp = none)
    (hm1 : matchingRows c.current n = [r]) :
    (_create_org p c).1 = Except.ok r.organisation_id
    ∧ ((_create_org p c).2).current.organisation = c.current.organisation
    ∧ ((_create_org p c).2).current.contact
        = c.current.contact.filter (fun k => !(k.organisation_id == r.organisation_id))
          ++ mkContactRows r.organisation_id c.current.next_id cs := by
  simp only [_create_org, hn, hm1, List.length_cons, List.length_nil, ha, hc]
  rw [if_neg (by decide : ¬ ((0 + 1 : Nat) > 1))]
  rw [fix_asns_nil_eq]
  dsimp only
  rw [fix_contacts_eq cs _ _ hcv]
  dsimp only
  exact ⟨rfl, rfl, rfl⟩

/-- The row `_create_org` inserts matches its own search values. -/
theorem orgRowMatches_mkOrgRow (n : NormScalars) (i : Nat) :
    orgRowMatches n (mkOrgRow i n) = true := by
  simp [orgRowMatches, mkOrgRow]

/-- The duplicate search only reads the organisation table. -/
theorem matchingRows_congr {db1 db2 : Db} (n : NormScalars)
    (h : db1.organisation = db2.organisation) :
    matchingRows db1 n = matchingRows db2 n := by
  unfold matchingRows
  rw [h]

/-- After a delete-and-recreate of the organisation's contacts, the
contacts stored for it are exactly the recreated ones. -/
theorem contacts_after (l : List ContactRow) (i nid : Nat) (cs : List ContactPayload) :
    (((l.filter (fun k => !(k.organisation_id == i))) ++ mkContactRows i nid cs).filter
       (fun k => k.organisation_id == i)).map contactRowFields
      = cs.map contactPayloadFields := by
  rw [List.filter_append, filter_org_of_filtered, filter_org_mkRows]
  simp [map_fields_mkRows]

/-- Claim C2 (amended): for every payload whose five scalar attributes
are present with a non-empty name (`normScalars` succeeds), whose ASN
list is empty (a payload ASN without stored annotation rows makes the
call fail, see the counterexample) and whose contacts are valid, and
for every database state in which at most one organisation row matches
the normalised values, calling `_create_org` twice in sequence with
identical field values returns the same organisation id from both
calls and leaves exactly one matching organisation row: the second
call reuses the row instead of inserting a duplicate, where matching
compares name, comment, ripe handle, ti handle, first handle and
sector (an absent/null/empty sector matching only rows with null
sector — this is what `normScalars` encodes). -/
theorem claim_C2_amended :
    ∀ (c : Conn) (p : OrgPayload) (n : NormScalars) (cs : List ContactPayload),
      normScalars p = Except.ok n →
      p.asns = some [] →
      p.contacts = some cs →
      (∀ cp ∈ cs, contactMissingAttr cp = none) →
      (matchingRows c.current n).length ≤ 1 →
      ∃ i : Nat,
        (_create_org p c).1 = Except.ok i
        ∧ (_create_org p ((_create_org p c).2)).1 = Except.ok i
        ∧ (matchingRows ((_create_org p ((_create_org p c).2)).2).current n).map
            (fun r => r.organisation_id) = [i] := by
  intro c p n cs hn ha hc hcv hm
  cases hml : matchingRows c.current n with
  | nil =>
    obtain ⟨h1, h2, -⟩ := create_ok_empty c p n cs hn ha hc hcv hml
    have hm2 : matchingRows ((_create_org p c).2).current n
        = [mkOrgRow c.current.next_id n] := by
      unfold matchingRows
      rw [h2, List.filter_append]
      have hfl : c.current.organisation.filter (fun r => orgRowMatches n r) = [] := hml
      rw [hfl]
      simp [orgRowMatches_mkOrgRow]
    obtain ⟨h3, h4, -⟩ := create_ok_single ((_create_org p c).2) p n cs
      (mkOrgRow c.current.next_id n) hn ha hc hcv hm2
    refine ⟨c.current.next_id, h1, h3, ?_⟩
    rw [matchingRows_congr n h4, hm2]
    rfl
  | cons r rest =>
    have hrest : rest = [] := by
      rw [hml] at hm
      simpa using hm
    subst hrest
    obtain ⟨h1, h2, -⟩ := create_ok_single c p n cs r hn ha hc hcv hml
    have hm2 : matchingRows ((_create_org p c).2).current n = [r] := by
      rw [matchingRows_congr n h2]
      exact hml
    obtain ⟨h3, h4, -⟩ := create_ok_single ((_create_org p c).2) p n cs r hn ha hc hcv hm2
    refine ⟨r.organisation_id, h1, h3, ?_⟩
    rw [matchingRows_congr n h4, hm2]
    rfl

/-- Witness for claim C2 at a concrete input: creating `pSimple` twice
against the empty database. -/
theorem claim_C2_witness :
    ∃ i : Nat,
      (_create_org pSimple (connOf dbEmpty)).1 = Except.ok i
      ∧ (_create_org pSimple ((_create_org pSimple (connOf dbEmpty)).2)).1 = Except.ok i
      ∧ (matchingRows ((_create_org pSimple
           ((_create_org pSimple (connOf dbEmpty)).2)).2).current nAcme).map
          (fun r => r.organisation_id) = [i] :=
  claim_C2_amended (connOf dbEmpty) pSimple nAcme [] (by decide) (by decide)
    (by decide) (by decide) (by decide)

/-- Claim C10 (amended): the duplicate-row search of `_create_org`
compares only the six scalar fields, so two create calls with
identical scalar values but different (valid) contact lists — with
empty ASN lists, see the counterexample for why a fresh payload ASN
aborts the call — yield the same organisation id, the second call
silently replacing the organisation's contacts with its own. -/
theorem claim_C10_amended :
    ∀ (c : Conn) (p1 p2 : OrgPayload) (n : NormScalars) (cs1 cs2 : List ContactPayload),
      normScalars p1 = Except.ok n →
      normScalars p2 = Except.ok n →
      p1.asns = some [] → p2.asns = some [] →
      p1.contacts = some cs1 → p2.contacts = some cs2 →
      (∀ cp ∈ cs1, contactMissingAttr cp = none) →
      (∀ cp ∈ cs2, contactMissingAttr cp = none) →
      cs1 ≠ cs2 →
      (matchingRows c.current n).length ≤ 1 →
      ∃ i : Nat,
        (_create_org p1 c).1 = Except.ok i
        ∧ (_create_org p2 ((_create_org p1 c).2)).1 = Except.ok i
        ∧ (((_create_org p2 ((_create_org p1 c).2)).2).current.contact.filter
             (fun k => k.organisation_id == i)).map contactRowFields
          = cs2.map contactPayloadFields := by
  intro c p1 p2 n cs1 cs2 hn1 hn2 ha1 ha2 hc1 hc2 hcv1 hcv2 hdiff hm
  cases hml : matchingRows c.current n with
  | nil =>
    obtain ⟨h1, h2, -⟩ := create_ok_empty c p1 n cs1 hn1 ha1 hc1 hcv1 hml
    have hm2 : matchingRows ((_create_org p1 c).2).current n
        = [mkOrgRow c.current.next_id n] := by
      unfold matchingRows
      rw [h2, List.filter_append]
      have hfl : c.current.organisation.filter (fun r => orgRowMatches n r) = [] := hml
      rw [hfl]
      simp [orgRowMatches_mkOrgRow]
    obtain ⟨h3, h4, h5⟩ := create_ok_single ((_create_org p1 c).2) p2 n cs2
      (mkOrgRow c.current.next_id n) hn2 ha2 hc2 hcv2 hm2
    refine ⟨c.current.next_id, h1, h3, ?_⟩
    rw [h5]
    exact contacts_after _ _ _ cs2
  | cons r rest =>
    have hrest : rest = [] := by
      rw [hml] at hm
      simpa using hm
    subst hrest
    obtain ⟨h1, h2, -⟩ := create_ok_single c p1 n cs1 r hn1 ha1 hc1 hcv1 hml
    have hm2 : matchingRows ((_create_org p1 c).2).current n = [r] := by
      rw [matchingRows_congr n h2]
      exact hml
    obtain ⟨h3, h4, h5⟩ := create_ok_single ((_create_org p1 c).2) p2 n cs2 r
      hn2 ha2 hc2 hcv2 hm2
    refine ⟨r.organisation_id, h1, h3, ?_⟩
    rw [h5]
    exact contacts_after _ _ _ cs2

/-- Witness for claim C10 at a concrete input: creating `pC3` (contact
Ann) then `pC10b` (contact Bob, same scalars) against the empty
database. -/
theorem claim_C10_witness :
    ∃ i : Nat,
      (_create_org pC3 (connOf dbEmpty)).1 = Except.ok i
      ∧ (_create_org pC10b ((_create_org pC3 (connOf dbEmpty)).2)).1 = Except.ok i
      ∧ (((_create_org pC10b ((_create_org pC3 (connOf dbEmpty)).2)).2).current.contact.filter
           (fun k => k.organisation_id == i)).map contactRowFields
        = [cFullB].map contactPayloadFields :=
  claim_C10_amended (connOf dbEmpty) pC3 pC10b nAcme [cFull] [cFullB]
    (by decide) (by decide) (by decide) (by decide) (by decide) (by decide)
    (by decide) (by decide) (by decide) (by decide)

/-- A commit never changes the state inside the transaction. -/
theorem commitIf_current (b : Bool) (c : Conn) : (commitIf b c).current = c.current := by
  cases b <;> rfl

/-- The per-ASN annotation attachment only reads (its commits copy
`current` into `committed`). -/
theorem attachAsnAnnos_current (b : Bool) :
    ∀ (rs : List OrgToAsnRow) (c : Conn),
      ((attachAsnAnnos b rs c).2).current = c.current := by
  intro rs
  induction rs with
  | nil => intro c; rfl
  | cons r rest ih =>
    intro c
    simp only [attachAsnAnnos]
    split
    · rw [ih, commitIf_current]
    · rw [ih, commitIf_current, commitIf_current]

/-- `__db_query_org` never changes the in-transaction state. -/
theorem db_query_org_current (oid : Nat) (endT : Bool) (c : Conn) :
    ((__db_query_org oid endT c).2).current = c.current := by
  unfold __db_query_org
  rcases hr : c.current.organisation.filter (fun r => r.organisation_id == oid) with _ | ⟨r, rest⟩
  · rw [hr]
  · rcases rest with _ | ⟨r2, rest2⟩
    · rw [hr]
      dsimp only
      simp [attachAsnAnnos_current, commitIf_current]
    · rw [hr]



/-- When `__db_query_org` returns an aggregate, exactly one
organisation row matched and its scalar columns are the aggregate's. -/
theorem db_query_org_some_inv (oid : Nat) (endT : Bool) (c : Conn) (agg : OrgAggregate)
    (h : (__db_query_org oid endT c).1 = Except.ok (some agg)) :
    c.current.organisation.filter (fun r => r.organisation_id == oid)
      = [{ organisation_id := agg.organisation_id, name := agg.name, comment := agg.comment,
           ripe_org_hdl := agg.ripe_org_hdl, ti_handle := agg.ti_handle,
           first_handle := agg.first_handle, sector_id := agg.sector_id }] := by
  unfold __db_query_org at h
  rcases hr : c.current.organisation.filter (fun r => r.organisation_id == oid) with _ | ⟨r, rest⟩
  · rw [hr] at h
    simp at h
  · rcases rest with _ | ⟨r2, rest2⟩
    · rw [hr] at h
      dsimp only at h
      have h2 := Except.ok.inj h
      have h3 := Option.some.inj h2
      rw [hr, ← h3]
    · rw [hr] at h
      simp at h



/-- Unlinking one organisation from one ASN does not change any other
organisation's links. -/
theorem filter_unlink2 (l : List OrgToAsnRow) (oid a a2 : Nat) :
    (l.filter (fun x => !(x.organisation_id == oid && x.asn == a))).filter
        (fun x => x.asn == a2 && !(x.organisation_id == oid))
      = l.filter (fun x => x.asn == a2 && !(x.organisation_id == oid)) := by
  rw [List.filter_filter]
  apply List.filter_congr
  intro x _
  cases h1 : x.organisation_id == oid <;> cases h2 : x.asn == a <;> simp [h1, h2]

/-- When every supplied ASN is still linked to some other
organisation, `__remove_or_unlink_asns` succeeds: it only unlinks, and
the organisation, contact and role tables are untouched. -/
theorem remove_asns_ok (oid : Nat) :
    ∀ (aps : List AsnPayload) (c : Conn),
      (∀ ap ∈ aps, (c.current.organisation_to_asn.filter
          (fun l => l.asn == ap.asn && !(l.organisation_id == oid))).length ≠ 0) →
      (__remove_or_unlink_asns aps oid c).1 = Except.ok ()
      ∧ ((__remove_or_unlink_asns aps oid c).2).current.organisation
          = c.current.organisation
      ∧ ((__remove_or_unlink_asns aps oid c).2).current.contact
          = c.current.contact
      ∧ ((__remove_or_unlink_asns aps oid c).2).current.role
          = c.current.role := by
  intro aps
  induction aps with
  | nil => intro c _; exact ⟨rfl, rfl, rfl, rfl⟩
  | cons ap rest ih =>
    intro c h
    have hhead := h ap (List.mem_cons_self ap rest)
    have hcnt : (((c.current.organisation_to_asn.filter
        (fun l => !(l.organisation_id == oid && l.asn == ap.asn))).filter
          (fun l => l.asn == ap.asn)).length == 0) = false := by
      rw [filter_unlink]
      simpa using hhead
    simp only [__remove_or_unlink_asns]
    rw [hcnt]
    simp only [if_false, Bool.false_eq_true]
    have hrest : ∀ ap2 ∈ rest,
        ((({ c with current := { c.current with
            organisation_to_asn := c.current.organisation_to_asn.filter
              (fun l => !(l.organisation_id == oid && l.asn == ap.asn)) } } : Conn)
          ).current.organisation_to_asn.filter
            (fun l => l.asn == ap2.asn && !(l.organisation_id == oid))).length ≠ 0 := by
      intro ap2 hm
      dsimp only
      rw [filter_unlink2]
      exact h ap2 (List.mem_cons_of_mem ap hm)
    exact ih _ hrest

/-- `__remove_or_unlink_contacts` succeeds whenever every supplied
contact carries its id, and never touches the organisation table. -/
theorem remove_contacts_ok (oid : Nat) :
    ∀ (cps : List ContactPayload) (c : Conn),
      (∀ cp ∈ cps, cp.contact_id ≠ none) →
      (__remove_or_unlink_contacts cps oid c).1 = Except.ok ()
      ∧ ((__remove_or_unlink_contacts cps oid c).2).current.organisation
          = c.current.organisation := by
  intro cps
  induction cps with
  | nil => intro c _; exact ⟨rfl, rfl⟩
  | cons cp rest ih =>
    intro c h
    rcases hid : cp.contact_id with _ | cid
    · exact absurd hid (h cp (List.mem_cons_self cp rest))
    · simp only [__remove_or_unlink_contacts, hid]
      have hrest : ∀ x ∈ rest, x.contact_id ≠ none :=
        fun x hx => h x (List.mem_cons_of_mem cp hx)
      constructor
      · exact (ih _ hrest).1
      · rw [(ih _ hrest).2]
        dsimp only
        split <;> rfl



/-- `_delete_org` on a payload that is field-for-field the stored
aggregate, when no linked ASN becomes orphaned: the organisation row
is deleted and its id returned. -/
theorem delete_ok (c : Conn) (agg : OrgAggregate)
    (hread : (__db_query_org agg.organisation_id false c).1 = Except.ok (some agg))
    (hlinks : ∀ e ∈ agg.asns, (c.current.organisation_to_asn.filter
        (fun l => l.asn == e.asn && !(l.organisation_id == agg.organisation_id))).length ≠ 0) :
    (_delete_org (aggToPayload agg) c).1 = Except.ok (some agg.organisation_id)
    ∧ ((_delete_org (aggToPayload agg) c).2).current.organisation
        = c.current.organisation.filter
            (fun r => !(r.organisation_id == agg.organisation_id)) := by
  have hrow := db_query_org_some_inv agg.organisation_id false c agg hread
  have hcur := db_query_org_current agg.organisation_id false c
  have hid : (aggToPayload agg).id = some agg.organisation_id := rfl
  have hasn : (aggToPayload agg).asns = some (agg.asns.map asnEntryToPayload) := rfl
  have hcon : (aggToPayload agg).contacts = some (agg.contacts.map contactRowToPayload) := rfl
  have hbeq : (aggToPayload agg == aggToPayload agg) = true := by simp
  simp only [_delete_org, hid, hasn, hcon]
  rcases hq : __db_query_org agg.organisation_id false c with ⟨res, c1⟩
  rw [hq] at hread hcur
  replace hread : res = Except.ok (some agg) := hread
  replace hcur : c1.current = c.current := hcur
  subst hread
  simp only [hbeq, Bool.not_true, Bool.false_eq_true, if_false]
  have hap : ∀ ap ∈ agg.asns.map asnEntryToPayload,
      (c1.current.organisation_to_asn.filter
        (fun l => l.asn == ap.asn && !(l.organisation_id == agg.organisation_id))).length ≠ 0 := by
    intro ap hm
    obtain ⟨e, he, rfl⟩ := List.mem_map.mp hm
    rw [hcur]
    exact hlinks e he
  obtain ⟨ha1, ha2, ha3, ha4⟩ := remove_asns_ok agg.organisation_id
    (agg.asns.map asnEntryToPayload) c1 hap
  rcases hrm : __remove_or_unlink_asns (agg.asns.map asnEntryToPayload)
      agg.organisation_id c1 with ⟨res2, c2⟩
  rw [hrm] at ha1 ha2 ha3 ha4
  replace ha1 : res2 = Except.ok () := ha1
  replace ha2 : c2.current.organisation = c1.current.organisation := ha2
  subst ha1
  have hcp : ∀ cp ∈ agg.contacts.map contactRowToPayload, cp.contact_id ≠ none := by
    intro cp hm
    obtain ⟨k, hk, rfl⟩ := List.mem_map.mp hm
    simp [contactRowToPayload]
  obtain ⟨hb1, hb2⟩ := remove_contacts_ok agg.organisation_id
    (agg.contacts.map contactRowToPayload) c2 hcp
  rcases hrc : __remove_or_unlink_contacts (agg.contacts.map contactRowToPayload)
      agg.organisation_id c2 with ⟨res3, c3⟩
  rw [hrc] at hb1 hb2
  replace hb1 : res3 = Except.ok () := hb1
  replace hb2 : c3.current.organisation = c2.current.organisation := hb2
  subst hb1
  have horg : c3.current.organisation = c.current.organisation := by
    rw [hb2, ha2, hcur]
  dsimp only
  rw [hrc]
  refine ⟨?_, ?_⟩ <;> simp [horg, hrow]



/-- `_delete_org` raises the CommitError when the supplied payload is
not field-for-field equal to the stored aggregate. -/
theorem delete_mismatch (c : Conn) (p : OrgPayload) (oid : Nat) (agg : OrgAggregate)
    (hpid : p.id = some oid)
    (hread : (__db_query_org oid false c).1 = Except.ok (some agg))
    (hne : aggToPayload agg ≠ p) :
    (_delete_org p c).1
      = Except.error (Err.commitError ("Org to be deleted differs from db entry.")) := by
  simp only [_delete_org, hpid]
  rcases hq : __db_query_org oid false c with ⟨res, c1⟩
  rw [hq] at hread
  replace hread : res = Except.ok (some agg) := hread
  subst hread
  have hb : (aggToPayload agg == p) = false := by
    simpa using hne
  simp [hb]

/-- `_delete_org` raises the same CommitError when no stored
aggregate exists for the id (a second delete of the same id). -/
theorem delete_missing (c : Conn) (p : OrgPayload) (oid : Nat)
    (hpid : p.id = some oid)
    (hread : (__db_query_org oid false c).1 = Except.ok none) :
    (_delete_org p c).1
      = Except.error (Err.commitError ("Org to be deleted differs from db entry.")) := by
  simp only [_delete_org, hpid]
  rcases hq : __db_query_org oid false c with ⟨res, c1⟩
  rw [hq] at hread
  replace hread : res = Except.ok none := hread
  subst hread
  simp

/-- Claim C4 (amended): `_delete_org` raises a ConsistencyError
(CommitError) when the supplied org is not field-for-field equal to
the currently stored manual aggregate; when they are equal AND every
linked ASN is still referenced by some other organisation (otherwise
the orphan check fails, see the counterexample), it deletes the
organisation row and returns the org id; and a delete of an id with no
stored aggregate — in particular a second delete of the same id —
raises the same ConsistencyError instead of returning nothing. -/
theorem claim_C4_delete_behaviour :
    (∀ (c : Conn) (p : OrgPayload) (oid : Nat) (agg : OrgAggregate),
       p.id = some oid →
       (__db_query_org oid false c).1 = Except.ok (some agg) →
       aggToPayload agg ≠ p →
       (_delete_org p c).1
         = Except.error (Err.commitError ("Org to be deleted differs from db entry.")))
    ∧ (∀ (c : Conn) (agg : OrgAggregate),
       (__db_query_org agg.organisation_id false c).1 = Except.ok (some agg) →
       (∀ e ∈ agg.asns, (c.current.organisation_to_asn.filter
           (fun l => l.asn == e.asn && !(l.organisation_id == agg.organisation_id))).length ≠ 0) →
       (_delete_org (aggToPayload agg) c).1 = Except.ok (some agg.organisation_id)
       ∧ ((_delete_org (aggToPayload agg) c).2).current.organisation
           = c.current.organisation.filter
               (fun r => !(r.organisation_id == agg.organisation_id)))
    ∧ (∀ (c : Conn) (p : OrgPayload) (oid : Nat),
       p.id = some oid →
       (__db_query_org oid false c).1 = Except.ok none →
       (_delete_org p c).1
         = Except.error (Err.commitError ("Org to be deleted differs from db entry."))) :=
  ⟨delete_mismatch, delete_ok, delete_missing⟩

/-- Witness for claim C4 at concrete inputs over `dbOrg2`: a payload
with a changed name is rejected; the exact payload deletes organisation
2 and returns its id; a delete of the absent organisation 7 is
rejected. -/
theorem claim_C4_witness :
    (_delete_org { aggToPayload aggOrg2 with name := PyVal.val "X" } (connOf dbOrg2)).1
      = Except.error (Err.commitError ("Org to be deleted differs from db entry."))
    ∧ ((_delete_org (aggToPayload aggOrg2) (connOf dbOrg2)).1
         = Except.ok (some aggOrg2.organisation_id)
       ∧ ((_delete_org (aggToPayload aggOrg2) (connOf dbOrg2)).2).current.organisation
           = (connOf dbOrg2).current.organisation.filter
               (fun r => !(r.organisation_id == aggOrg2.organisation_id)))
    ∧ (_delete_org pDelBad (connOf dbOrg2)).1
      = Except.error (Err.commitError ("Org to be deleted differs from db entry.")) :=
  ⟨claim_C4_delete_behaviour.1 (connOf dbOrg2)
     { aggToPayload aggOrg2 with name := PyVal.val "X" } 2 aggOrg2 rfl (by decide) (by decide),
   claim_C4_delete_behaviour.2.1 (connOf dbOrg2) aggOrg2 (by decide) (by decide),
   claim_C4_delete_behaviour.2.2 (connOf dbOrg2) pDelBad 7 rfl (by decide)⟩


/-- Claim C10 counterexample: two create calls with identical scalar
fields but different contact lists where the second call does not
return the first call's id: the second payload's contact lacks the
email attribute, so the call fails after the shared row was found. -/
theorem claim_C10_counterexample :
    (_create_org pC3 (connOf dbEmpty)).1 = Except.ok 1
    ∧ (_create_org { pC3 with contacts := some [{ cFull with email := none }] }
        ((_create_org pC3 (connOf dbEmpty)).2)).1
      = Except.error (Err.commitError ("email not set")) := by
  decide

/-! ## Claim C3: the update round-trip -/

/-- Filtering for a predicate after keeping only its complement yields
nothing. -/
theorem filter_not_self {α : Type} (l : List α) (p : α → Bool) :
    (l.filter (fun x => !(p x))).filter p = [] := by
  induction l with
  | nil => rfl
  | cons x xs ih => cases h : p x <;> simp [List.filter, h, ih]

theorem map_id_of_eq {α : Type} (l : List α) (g : α → α)
    (h : ∀ a ∈ l, g a = a) : l.map g = l := by
  induction l with
  | nil => rfl
  | cons x xs ih =>
    rw [List.map_cons, h x (List.mem_cons_self x xs),
        ih (fun a ha => h a (List.mem_cons_of_mem x ha))]

theorem singleton_of_mem_len_le {α : Type} (l : List α) (a : α)
    (hm : a ∈ l) (hl : l.length ≤ 1) : l = [a] := by
  cases l with
  | nil => cases hm
  | cons x xs =>
    cases xs with
    | nil => simp at hm; rw [hm]
    | cons y ys => simp at hl

theorem orgRowMatches_inv (n : NormScalars) (r : OrgRow)
    (h : orgRowMatches n r = true) : r = mkOrgRow r.organisation_id n := by
  simp only [orgRowMatches, Bool.and_eq_true, beq_iff_eq] at h
  obtain ⟨⟨⟨⟨⟨h1, h2⟩, h3⟩, h4⟩, h5⟩, h6⟩ := h
  cases r
  simp only [mkOrgRow] at h1 h2 h3 h4 h5 h6 ⊢
  simp [h1, h2, h3, h4, h5, h6]

theorem filter_false_of {α : Type} (l : List α) (p : α → Bool)
    (h : ∀ a ∈ l, p a = false) : l.filter p = [] := by
  induction l with
  | nil => rfl
  | cons x xs ih =>
    rw [List.filter_cons, h x (List.mem_cons_self x xs)]
    exact ih (fun a ha => h a (List.mem_cons_of_mem x ha))

theorem db_query_org_eq (oid : Nat) (c : Conn) (row : OrgRow)
    (orgs : List OrgRow) (links : List OrgToAsnRow) (contacts : List ContactRow)
    (certs : List NationalCertRow) (nets : List NetworkRow)
    (otn : List OrgToNetworkRow) (fqs : List FqdnRow) (otf : List OrgToFqdnRow)
    (oann : List OrgAnnoRow)
    (h1 : c.current.organisation = orgs)
    (h2 : c.current.organisation_to_asn = links)
    (h3 : c.current.contact = contacts)
    (h4 : c.current.national_cert = certs)
    (h5 : c.current.network = nets)
    (h6 : c.current.organisation_to_network = otn)
    (h7 : c.current.fqdn = fqs)
    (h8 : c.current.organisation_to_fqdn = otf)
    (h9 : c.current.org_annos = oann)
    (hrow : orgs.filter (fun r => r.organisation_id == oid) = [row])
    (hlinks : links.filter (fun l => l.organisation_id == oid) = []) :
    __db_query_org oid false c =
      (Except.ok (some { organisation_id := row.organisation_id, name := row.name,
                         comment := row.comment, ripe_org_hdl := row.ripe_org_hdl,
                         ti_handle := row.ti_handle,
                         first_handle := row.first_handle, sector_id := row.sector_id,
                         asns := [],
                         contacts := contacts.filter (fun k => k.organisation_id == oid),
                         nationalcerts := certs.filter (fun k => k.organisation_id == oid),
                         networks := (joinNetworksT nets otn).filter
                           (fun k => k.organisation_id == oid),
                         fqdns := (joinFqdnsT fqs otf).filter
                           (fun k => k.organisation_id == oid),
                         annotations := orgAnnosAggT oann oid }), c) := by
  unfold __db_query_org
  rw [h1, hrow]
  dsimp only
  rw [h2, hlinks]
  simp [attachAsnAnnos, commitIf, h3, h4, h5, h6, h7, h8, h9,
        joinNetworks, joinFqdns, orgAnnosAgg]



theorem create_eq_empty (c : Conn) (p : OrgPayload) (n : NormScalars)
    (cs : List ContactPayload)
    (hn : normScalars p = Except.ok n)
    (ha : p.asns = some [])
    (hc : p.contacts = some cs)
    (hcv : ∀ cp ∈ cs, contactMissingAttr cp = none)
    (hm0 : matchingRows c.current n = []) :
    _create_org p c =
      (Except.ok c.current.next_id,
       { committed := c.committed,
         current :=
           { organisation := c.current.organisation ++ [mkOrgRow c.current.next_id n],
             organisation_to_asn := c.current.organisation_to_asn.filter
               (fun l => !(l.organisation_id == c.current.next_id)),
             autonomous_system := c.current.autonomous_system,
             asn_annos := c.current.asn_annos.filter (fun r =>
               (c.current.organisation_to_asn.filter
                 (fun l => !(l.organisation_id == c.current.next_id))).any
                 (fun l => l.asn == r.asn)),
             org_annos := c.current.org_annos,
             contact := c.current.contact.filter
                 (fun k => !(k.organisation_id == c.current.next_id))
               ++ mkContactRows c.current.next_id (c.current.next_id + 1) cs,
             contact_automatic := c.current.contact_automatic,
             role := c.current.role,
             inhibition := c.current.inhibition,
             network := c.current.network,
             national_cert := c.current.national_cert,
             organisation_to_network := c.current.organisation_to_network,
             fqdn := c.current.fqdn,
             organisation_to_fqdn := c.current.organisation_to_fqdn,
             next_id := c.current.next_id + 1 + cs.length } }) := by
  simp only [_create_org, hn, hm0, ha, hc, List.length_nil]
  rw [if_neg (by decide : ¬ ((0 : Nat) > 1))]
  rw [fix_asns_nil_eq]
  dsimp only
  rw [fix_contacts_eq cs _ _ hcv]

theorem create_eq_single (c : Conn) (p : OrgPayload) (n : NormScalars)
    (cs : List ContactPayload) (r : OrgRow)
    (hn : normScalars p = Except.ok n)
    (ha : p.asns = some [])
    (hc : p.contacts = some cs)
    (hcv : ∀ cp ∈ cs, contactMissingAttr cp = none)
    (hm1 : matchingRows c.current n = [r]) :
    _create_org p c =
      (Except.ok r.organisation_id,
       { committed := c.committed,
         current :=
           { organisation := c.current.organisation,
             organisation_to_asn := c.current.organisation_to_asn.filter
               (fun l => !(l.organisation_id == r.organisation_id)),
             autonomous_system := c.current.autonomous_system,
             asn_annos := c.current.asn_annos.filter (fun q =>
               (c.current.organisation_to_asn.filter
                 (fun l => !(l.organisation_id == r.organisation_id))).any
                 (fun l => l.asn == q.asn)),
             org_annos := c.current.org_annos,
             contact := c.current.contact.filter
                 (fun k => !(k.organisation_id == r.organisation_id))
               ++ mkContactRows r.organisation_id c.current.next_id cs,
             contact_automatic := c.current.contact_automatic,
             role := c.current.role,
             inhibition := c.current.inhibition,
             network := c.current.network,
             national_cert := c.current.national_cert,
             organisation_to_network := c.current.organisation_to_network,
             fqdn := c.current.fqdn,
             organisation_to_fqdn := c.current.organisation_to_fqdn,
             next_id := c.current.next_id + cs.length } }) := by
  simp only [_create_org, hn, hm1, List.length_cons, List.length_nil, ha, hc]
  rw [if_neg (by decide : ¬ ((0 + 1 : Nat) > 1))]
  rw [fix_asns_nil_eq]
  dsimp only
  rw [fix_contacts_eq cs _ _ hcv]



theorem update_eq (c : Conn) (p : OrgPayload) (oid : Nat) (agg : OrgAggregate)
    (cs : List ContactPayload) (nm cmv rpv tiv fhv : String)
    (hpid : p.id = some oid)
    (hq : __db_query_org oid false c = (Except.ok (some agg), c))
    (hagg : agg.organisation_id = oid)
    (hpn : p.name = PyVal.val nm)
    (hnm : (nm == "") = false)
    (ha : p.asns = some [])
    (hc : p.contacts = some cs)
    (hcv : ∀ cp ∈ cs, contactMissingAttr cp = none)
    (hcm : p.comment = PyVal.val cmv)
    (hrp : p.ripe_org_hdl = PyVal.val rpv)
    (hti : p.ti_handle = PyVal.val tiv)
    (hfh : p.first_handle = PyVal.val fhv)
    (hsec : p.sector_id ≠ PySector.absent) :
    _update_org p c =
      (Except.ok oid,
       { committed := c.committed,
         current :=
           { organisation := c.current.organisation.map (fun q =>
               if q.organisation_id == oid then
                 { q with name := some nm, sector_id := sectorNorm p.sector_id,
                          comment := some cmv, ripe_org_hdl := some rpv,
                          ti_handle := some tiv, first_handle := some fhv }
               else q),
             organisation_to_asn := c.current.organisation_to_asn.filter
               (fun l => !(l.organisation_id == oid)),
             autonomous_system := c.current.autonomous_system,
             asn_annos := c.current.asn_annos.filter (fun q =>
               (c.current.organisation_to_asn.filter
                 (fun l => !(l.organisation_id == oid))).any
                 (fun l => l.asn == q.asn)),
             org_annos := c.current.org_annos,
             contact := c.current.contact.filter
                 (fun k => !(k.organisation_id == oid))
               ++ mkContactRows oid c.current.next_id cs,
             contact_automatic := c.current.contact_automatic,
             role := c.current.role,
             inhibition := c.current.inhibition,
             network := c.current.network,
             national_cert := c.current.national_cert,
             organisation_to_network := c.current.organisation_to_network,
             fqdn := c.current.fqdn,
             organisation_to_fqdn := c.current.organisation_to_fqdn,
             next_id := c.current.next_id + cs.length } }) := by
  simp only [_update_org, hpid]
  rw [hq]
  dsimp only
  rw [hagg]
  simp only [beq_self_eq_true, Bool.not_true, Bool.false_eq_true, if_false]
  rw [hpn]
  dsimp only
  rw [hnm]
  simp only [Bool.false_eq_true, if_false]
  rw [ha]
  dsimp only
  rw [fix_asns_nil_eq]
  dsimp only
  rw [hc]
  dsimp only
  rw [fix_contacts_eq cs _ _ hcv]
  dsimp only
  rcases hps : p.sector_id with _ | _ | _ | k
  · exact absurd hps hsec
  · rw [hcm, hrp, hti, hfh]
    simp only [pyParam, sectorNorm]
  · rw [hcm, hrp, hti, hfh]
    simp only [pyParam, sectorNorm]
  · rw [hcm, hrp, hti, hfh]
    simp only [pyParam, sectorNorm]

/-- Claim C3 (amended): for every payload whose scalar attributes are
present values with a non-empty name, whose ASN list is empty (a
payload ASN without stored annotation rows makes the call fail, see
the C5 counterexample), whose contacts are all valid, and for every
database state whose organisation ids are unique and below the id
counter with at most one row matching the payload's scalars:
`_create_org` returns an id, the read-back succeeds, `_update_org` on
the same payload extended with that id succeeds, and the re-read
aggregate is unchanged EXCEPT for its contact rows, which carry the
same field values in the same order but fresh generated contact ids
(the reconcile deletes and reinserts them, see the counterexample). -/
theorem claim_C3_amended :
    ∀ (c : Conn) (p : OrgPayload) (n : NormScalars) (cs : List ContactPayload),
      normScalars p = Except.ok n →
      p.name = PyVal.val n.name →
      p.comment = PyVal.val n.comment →
      p.ripe_org_hdl = PyVal.val n.ripe_org_hdl →
      p.ti_handle = PyVal.val n.ti_handle →
      p.first_handle = PyVal.val n.first_handle →
      p.sector_id ≠ PySector.absent →
      sectorNorm p.sector_id = n.sector_id →
      (n.name == "") = false →
      p.asns = some [] →
      p.contacts = some cs →
      (∀ cp ∈ cs, contactMissingAttr cp = none) →
      (∀ j, (c.current.organisation.filter (fun r => r.organisation_id == j)).length ≤ 1) →
      (∀ r ∈ c.current.organisation, (r.organisation_id == c.current.next_id) = false) →
      (matchingRows c.current n).length ≤ 1 →
      ∃ (i : Nat) (agg1 agg2 : OrgAggregate),
        (_create_org p c).1 = Except.ok i
        ∧ (__db_query_org i false ((_create_org p c).2)).1 = Except.ok (some agg1)
        ∧ (_update_org { p with id := some i } ((_create_org p c).2)).1 = Except.ok i
        ∧ (__db_query_org i false
            ((_update_org { p with id := some i } ((_create_org p c).2)).2)).1
          = Except.ok (some agg2)
        ∧ agg2.contacts.map contactRowFields = agg1.contacts.map contactRowFields
        ∧ { agg2 with contacts := agg1.contacts } = agg1 := by
  intro c p n cs hn hpn hcm hrp hti hfh hsec hsv hnm ha hc hcv huniq hfresh hm
  cases hml : matchingRows c.current n with
  | nil =>
    have hcr := create_eq_empty c p n cs hn ha hc hcv hml
    have hrow1 : (c.current.organisation ++ [mkOrgRow c.current.next_id n]).filter
        (fun r => r.organisation_id == c.current.next_id)
          = [mkOrgRow c.current.next_id n] := by
      rw [List.filter_append, filter_false_of _ _ hfresh]
      simp [mkOrgRow]
    have hq1 := db_query_org_eq c.current.next_id ((_create_org p c).2)
      (mkOrgRow c.current.next_id n)
      (c.current.organisation ++ [mkOrgRow c.current.next_id n])
      (c.current.organisation_to_asn.filter
        (fun l => !(l.organisation_id == c.current.next_id)))
      (c.current.contact.filter (fun k => !(k.organisation_id == c.current.next_id))
        ++ mkContactRows c.current.next_id (c.current.next_id + 1) cs)
      c.current.national_cert c.current.network c.current.organisation_to_network
      c.current.fqdn c.current.organisation_to_fqdn c.current.org_annos
      (by rw [hcr]) (by rw [hcr]) (by rw [hcr]) (by rw [hcr]) (by rw [hcr])
      (by rw [hcr]) (by rw [hcr]) (by rw [hcr]) (by rw [hcr])
      hrow1 (filter_not_self _ _)
    have hupd := update_eq ((_create_org p c).2) { p with id := some c.current.next_id }
      c.current.next_id _ cs n.name n.comment n.ripe_org_hdl n.ti_handle n.first_handle
      rfl hq1 rfl hpn hnm ha hc hcv hcm hrp hti hfh hsec
    have hq2 := db_query_org_eq c.current.next_id
      ((_update_org { p with id := some c.current.next_id } ((_create_org p c).2)).2)
      (mkOrgRow c.current.next_id n)
      (c.current.organisation ++ [mkOrgRow c.current.next_id n])
      ((c.current.organisation_to_asn.filter
          (fun l => !(l.organisation_id == c.current.next_id))).filter
        (fun l => !(l.organisation_id == c.current.next_id)))
      ((c.current.contact.filter (fun k => !(k.organisation_id == c.current.next_id))
          ++ mkContactRows c.current.next_id (c.current.next_id + 1) cs).filter
            (fun k => !(k.organisation_id == c.current.next_id))
        ++ mkContactRows c.current.next_id (c.current.next_id + 1 + cs.length) cs)
      c.current.national_cert c.current.network c.current.organisation_to_network
      c.current.fqdn c.current.organisation_to_fqdn c.current.org_annos
      (by
        rw [hupd]
        dsimp only
        rw [hcr]
        dsimp only
        rw [List.map_append]
        rw [map_id_of_eq _ _ (fun a ha => by simp [hfresh a ha])]
        simp [mkOrgRow, hsv])
      (by rw [hupd, hcr]) (by rw [hupd, hcr]) (by rw [hupd, hcr]) (by rw [hupd, hcr])
      (by rw [hupd, hcr]) (by rw [hupd, hcr]) (by rw [hupd, hcr]) (by rw [hupd, hcr])
      hrow1 (filter_not_self _ _)
    refine ⟨c.current.next_id,
      { organisation_id := c.current.next_id,
        name := some n.name, comment := some n.comment,
        ripe_org_hdl := some n.ripe_org_hdl,
        ti_handle := some n.ti_handle, first_handle := some n.first_handle,
        sector_id := n.sector_id,
        asns := [],
        contacts := (c.current.contact.filter
            (fun k => !(k.organisation_id == c.current.next_id))
          ++ mkContactRows c.current.next_id (c.current.next_id + 1) cs).filter
            (fun k => k.organisation_id == c.current.next_id),
        nationalcerts := c.current.national_cert.filter
          (fun k => k.organisation_id == c.current.next_id),
        networks := (joinNetworksT c.current.network c.current.organisation_to_network).filter
          (fun k => k.organisation_id == c.current.next_id),
        fqdns := (joinFqdnsT c.current.fqdn c.current.organisation_to_fqdn).filter
          (fun k => k.organisation_id == c.current.next_id),
        annotations := orgAnnosAggT c.current.org_annos c.current.next_id },
      { organisation_id := c.current.next_id,
        name := some n.name, comment := some n.comment,
        ripe_org_hdl := some n.ripe_org_hdl,
        ti_handle := some n.ti_handle, first_handle := some n.first_handle,
        sector_id := n.sector_id,
        asns := [],
        contacts := ((c.current.contact.filter
              (fun k => !(k.organisation_id == c.current.next_id))
            ++ mkContactRows c.current.next_id (c.current.next_id + 1) cs).filter
              (fun k => !(k.organisation_id == c.current.next_id))
          ++ mkContactRows c.current.next_id (c.current.next_id + 1 + cs.length) cs).filter
            (fun k => k.organisation_id == c.current.next_id),
        nationalcerts := c.current.national_cert.filter
          (fun k => k.organisation_id == c.current.next_id),
        networks := (joinNetworksT c.current.network c.current.organisation_to_network).filter
          (fun k => k.organisation_id == c.current.next_id),
        fqdns := (joinFqdnsT c.current.fqdn c.current.organisation_to_fqdn).filter
          (fun k => k.organisation_id == c.current.next_id),
        annotations := orgAnnosAggT c.current.org_annos c.current.next_id },
      ?_, ?_, ?_, ?_, ?_, ?_⟩
    · rw [hcr]
    · rw [hq1]
      rfl
    · rw [hupd]
    · rw [hq2]
      rfl
    · dsimp only
      rw [contacts_after, contacts_after]
    · rfl
  | cons r rest =>
    have hm1 : matchingRows c.current n = [r] := by
      rw [hml] at hm ⊢
      cases rest with
      | nil => rfl
      | cons y ys => simp at hm
    have hrmem := List.mem_filter.mp
      (show r ∈ matchingRows c.current n by
        rw [hm1]; exact List.mem_cons_self r [])
    have hr : r = mkOrgRow r.organisation_id n := orgRowMatches_inv n r hrmem.2
    have hrow1 : c.current.organisation.filter
        (fun q => q.organisation_id == r.organisation_id) = [r] :=
      singleton_of_mem_len_le _ r
        (List.mem_filter.mpr ⟨hrmem.1, by simp⟩)
        (huniq r.organisation_id)
    have hcr := create_eq_single c p n cs r hn ha hc hcv hm1
    have hmap : c.current.organisation.map (fun q =>
        if q.organisation_id == r.organisation_id then
          { q with name := some n.name, sector_id := sectorNorm p.sector_id,
                   comment := some n.comment, ripe_org_hdl := some n.ripe_org_hdl,
                   ti_handle := some n.ti_handle, first_handle := some n.first_handle }
        else q) = c.current.organisation := by
      apply map_id_of_eq
      intro a hmem
      by_cases hid : (a.organisation_id == r.organisation_id) = true
      · have har : a = r := by
          have hin : a ∈ c.current.organisation.filter
              (fun q => q.organisation_id == r.organisation_id) :=
            List.mem_filter.mpr ⟨hmem, hid⟩
          rw [hrow1] at hin
          simpa using hin
        rw [har.trans hr]
        simp [mkOrgRow, hsv]
      · simp only [Bool.not_eq_true] at hid
        simp [hid]
    have hq1 := db_query_org_eq r.organisation_id ((_create_org p c).2) r
      c.current.organisation
      (c.current.organisation_to_asn.filter
        (fun l => !(l.organisation_id == r.organisation_id)))
      (c.current.contact.filter (fun k => !(k.organisation_id == r.organisation_id))
        ++ mkContactRows r.organisation_id c.current.next_id cs)
      c.current.national_cert c.current.network c.current.organisation_to_network
      c.current.fqdn c.current.organisation_to_fqdn c.current.org_annos
      (by rw [hcr]) (by rw [hcr]) (by rw [hcr]) (by rw [hcr]) (by rw [hcr])
      (by rw [hcr]) (by rw [hcr]) (by rw [hcr]) (by rw [hcr])
      hrow1 (filter_not_self _ _)
    have hupd := update_eq ((_create_org p c).2)
      { p with id := some r.organisation_id }
      r.organisation_id _ cs n.name n.comment n.ripe_org_hdl n.ti_handle n.first_handle
      rfl hq1 rfl hpn hnm ha hc hcv hcm hrp hti hfh hsec
    have hq2 := db_query_org_eq r.organisation_id
      ((_update_org { p with id := some r.organisation_id }
        ((_create_org p c).2)).2) r
      c.current.organisation
      ((c.current.organisation_to_asn.filter
          (fun l => !(l.organisation_id == r.organisation_id))).filter
        (fun l => !(l.organisation_id == r.organisation_id)))
      ((c.current.contact.filter (fun k => !(k.organisation_id == r.organisation_id))
          ++ mkContactRows r.organisation_id c.current.next_id cs).filter
            (fun k => !(k.organisation_id == r.organisation_id))
        ++ mkContactRows r.organisation_id (c.current.next_id + cs.length) cs)
      c.current.national_cert c.current.network c.current.organisation_to_network
      c.current.fqdn c.current.organisation_to_fqdn c.current.org_annos
      (by
        rw [hupd]
        dsimp only
        rw [hcr]
        dsimp only
        exact hmap)
      (by rw [hupd, hcr]) (by rw [hupd, hcr]) (by rw [hupd, hcr]) (by rw [hupd, hcr])
      (by rw [hupd, hcr]) (by rw [hupd, hcr]) (by rw [hupd, hcr]) (by rw [hupd, hcr])
      hrow1 (filter_not_self _ _)
    refine ⟨r.organisation_id,
      { organisation_id := r.organisation_id,
        name := r.name, comment := r.comment,
        ripe_org_hdl := r.ripe_org_hdl,
        ti_handle := r.ti_handle, first_handle := r.first_handle,
        sector_id := r.sector_id,
        asns := [],
        contacts := (c.current.contact.filter
            (fun k => !(k.organisation_id == r.organisation_id))
          ++ mkContactRows r.organisation_id c.current.next_id cs).filter
            (fun k => k.organisation_id == r.organisation_id),
        nationalcerts := c.current.national_cert.filter
          (fun k => k.organisation_id == r.organisation_id),
        networks := (joinNetworksT c.current.network c.current.organisation_to_network).filter
          (fun k => k.organisation_id == r.organisation_id),
        fqdns := (joinFqdnsT c.current.fqdn c.current.organisation_to_fqdn).filter
          (fun k => k.organisation_id == r.organisation_id),
        annotations := orgAnnosAggT c.current.org_annos r.organisation_id },
      { organisation_id := r.organisation_id,
        name := r.name, comment := r.comment,
        ripe_org_hdl := r.ripe_org_hdl,
        ti_handle := r.ti_handle, first_handle := r.first_handle,
        sector_id := r.sector_id,
        asns := [],
        contacts := ((c.current.contact.filter
              (fun k => !(k.organisation_id == r.organisation_id))
            ++ mkContactRows r.organisation_id c.current.next_id cs).filter
              (fun k => !(k.organisation_id == r.organisation_id))
          ++ mkContactRows r.organisation_id (c.current.next_id + cs.length) cs).filter
            (fun k => k.organisation_id == r.organisation_id),
        nationalcerts := c.current.national_cert.filter
          (fun k => k.organisation_id == r.organisation_id),
        networks := (joinNetworksT c.current.network c.current.organisation_to_network).filter
          (fun k => k.organisation_id == r.organisation_id),
        fqdns := (joinFqdnsT c.current.fqdn c.current.organisation_to_fqdn).filter
          (fun k => k.organisation_id == r.organisation_id),
        annotations := orgAnnosAggT c.current.org_annos r.organisation_id },
      ?_, ?_, ?_, ?_, ?_, ?_⟩
    · rw [hcr]
    · rw [hq1]
    · rw [hupd]
    · rw [hq2]
    · dsimp only
      rw [contacts_after, contacts_after]
    · rfl

/-- Witness for claim C3: the amended round-trip instantiated on the
empty database with the one-contact payload `pC3`. -/
theorem claim_C3_witness :
    ∃ (i : Nat) (agg1 agg2 : OrgAggregate),
      (_create_org pC3 (connOf dbEmpty)).1 = Except.ok i
      ∧ (__db_query_org i false ((_create_org pC3 (connOf dbEmpty)).2)).1
        = Except.ok (some agg1)
      ∧ (_update_org { pC3 with id := some i }
          ((_create_org pC3 (connOf dbEmpty)).2)).1 = Except.ok i
      ∧ (__db_query_org i false
          ((_update_org { pC3 with id := some i }
            ((_create_org pC3 (connOf dbEmpty)).2)).2)).1
        = Except.ok (some agg2)
      ∧ agg2.contacts.map contactRowFields = agg1.contacts.map contactRowFields
      ∧ { agg2 with contacts := agg1.contacts } = agg1 :=
  claim_C3_amended (connOf dbEmpty) pC3 nAcme [cFull] (by decide) (by decide)
    (by decide) (by decide) (by decide) (by decide) (by decide) (by decide)
    (by decide) (by decide) (by decide) (by decide) (by intro j; simp [connOf, dbEmpty])
    (by decide) (by decide)

end ContactDb
